import Mathlib

/-!
Verification of the Game-of-Life universe (`src/lib.rs`).

The Rust source is shallowly embedded below.  `u32` quantities are modelled
as `Nat`; every arithmetic operation the source performs stays within `u32`
range in the executions the claims quantify over (the `u8` neighbour count
is at most 8, and `%` is written exactly where the source performs it).
A fallible slice access (`self.cells[idx]` on the write path of `set_cells`,
which panics when out of bounds) is modelled with `Option`; in-bounds read
paths use `List.getD` with a `Dead` default, and every theorem that relies
on a read proves (through the length invariant) that the access is in range.
-/

namespace GameOfLife

/-- Representation of a cell (`enum Cell { Alive = 1, Dead = 0 }`). -/
inductive Cell where
  | Alive : Cell
  | Dead : Cell
deriving DecidableEq

/-- The numeric value of a cell (`self.cells[idx] as u8`): `Alive = 1`, `Dead = 0`. -/
def cellToNat : Cell → Nat
  | Cell.Alive => 1
  | Cell.Dead => 0

/-- Representation of a wrapping universe (`struct Universe`). -/
structure Universe where
  width : Nat
  height : Nat
  cells : List Cell
deriving DecidableEq

/-- `set_width`: sets the width and resets all cells to dead state. -/
def set_width (u : Universe) (width : Nat) : Universe :=
  Universe.mk width u.height ((List.range (width * u.height)).map (fun _ => Cell.Dead))

/-- `set_height`: sets the height and resets all cells to dead state. -/
def set_height (u : Universe) (height : Nat) : Universe :=
  Universe.mk u.width height ((List.range (u.width * height)).map (fun _ => Cell.Dead))

/-- `get_index`: the vector index of a cell row and column. -/
def get_index (u : Universe) (row column : Nat) : Nat :=
  (row * u.width) + column

/-- `live_neighbour_count`: counts the number of live neighbours at a given
cell.  Note the source applies `delta_col` (drawn from `[width-1, 0, 1]`)
to the row coordinate and `delta_row` (drawn from `[height-1, 0, 1]`) to
the column coordinate; the embedding reproduces that exactly. -/
def live_neighbour_count (u : Universe) (row column : Nat) : Nat :=
  [u.height - 1, 0, 1].foldl (fun count delta_row =>
    [u.width - 1, 0, 1].foldl (fun count delta_col =>
      if delta_row = 0 ∧ delta_col = 0 then count
      else
        count + cellToNat (u.cells.getD
          (get_index u ((row + delta_col) % u.height) ((column + delta_row) % u.width))
          Cell.Dead)) count) 0

/-- The `match (cell, live_neighbours)` expression inside `tick`, arm by arm. -/
def next_cell (cell : Cell) (live_neighbours : Nat) : Cell :=
  if cell = Cell.Alive ∧ live_neighbours < 2 then Cell.Dead
  else if (cell = Cell.Alive ∧ live_neighbours = 2) ∨ (cell = Cell.Alive ∧ live_neighbours = 3) then Cell.Alive
  else if cell = Cell.Alive ∧ live_neighbours > 3 then Cell.Dead
  else if cell = Cell.Dead ∧ live_neighbours = 3 then Cell.Alive
  else cell

/-- `tick`: applies Conway's four rules to advance the state of the universe.
`next` starts as a clone of `self.cells`; every read inside the loop is from
the unmodified `u.cells`, every write goes to `next`. -/
def tick (u : Universe) : Universe :=
  Universe.mk u.width u.height
    ((List.range u.height).foldl (fun next row =>
      (List.range u.width).foldl (fun next col =>
        next.set (get_index u row col)
          (next_cell (u.cells.getD (get_index u row col) Cell.Dead)
            (live_neighbour_count u row col))) next) u.cells)

/-- `Universe::new()`: 64×64, cell `i` alive iff `i % 2 == 0 || i % 7 == 0`.
(`utils::set_panic_hook` is wasm glue with no effect on the state.) -/
def new : Universe :=
  Universe.mk 64 64
    ((List.range (64 * 64)).map (fun i =>
      if i % 2 = 0 ∨ i % 7 = 0 then Cell.Alive else Cell.Dead))

/-- The glyph written by the `Display` impl for one cell. -/
def symbol (cell : Cell) : Char :=
  if cell = Cell.Dead then '◻' else '◼'

/-- `self.cells.as_slice().chunks(self.width as usize)`: the rows of the
buffer, as slices of length `width` (the last one shorter if the length is
not a multiple).  Rust's `chunks(0)` panics; this function is only used,
and only specified, for `0 < w`. -/
def chunks (w : Nat) (l : List Cell) : List (List Cell) :=
  if h : l = [] ∨ w = 0 then []
  else l.take w :: chunks w (l.drop w)
termination_by l.length
decreasing_by
  simp only [not_or] at h
  have hl : l.length ≠ 0 := fun hh => h.1 (List.eq_nil_of_length_eq_zero hh)
  have hw : w ≠ 0 := h.2
  simp only [List.length_drop]
  omega

/-- The character stream produced by the `Display` impl: for each row chunk,
one glyph per cell followed by a newline. -/
def renderChars (u : Universe) : List Char :=
  (chunks u.width u.cells).foldl (fun acc line => acc ++ (line.map symbol ++ ['\n'])) []

/-- `render`: the universe as its string representation. -/
def render (u : Universe) : String :=
  String.mk (renderChars u)

/-- `get_cells`: the dead or alive status of every cell. -/
def get_cells (u : Universe) : List Cell :=
  u.cells

/-- `set_cells`: sets the cell at every listed (row, column) pair to alive.
`self.cells[idx] = Cell::Alive` panics when `idx` is out of bounds, which the
`Option` models: `none` is the fatal fault. -/
def set_cells (u : Universe) (coords : List (Nat × Nat)) : Option Universe :=
  match coords with
  | [] => some u
  | (row, col) :: rest =>
    if get_index u row col < u.cells.length then
      set_cells (Universe.mk u.width u.height (u.cells.set (get_index u row col) Cell.Alive)) rest
    else none

/-! ## Specification-side definitions

These formalise the wording of the specification and the claims; they are
compared against the embedded source functions above. -/

/-- The 9 offset pairs `{height-1, 0, 1}` (row deltas) × `{width-1, 0, 1}`
(column deltas) with the `(0,0)` self-offset skipped (skipping is by value,
exactly as the source's `delta_row == 0 && delta_col == 0` test). -/
def offsetPairs (u : Universe) : List (Nat × Nat) :=
  (([u.height - 1, 0, 1].map (fun dr => [u.width - 1, 0, 1].map (fun dc => (dr, dc)))).flatten).filter
    (fun p => !(p.1 == 0 && p.2 == 0))

/-- The neighbour count exactly as claim C1 words it: the row delta `p.1`
is added to the row and reduced mod `height`, the column delta `p.2` is
added to the column and reduced mod `width`. -/
def specNeighbourCount (u : Universe) (row column : Nat) : Nat :=
  ((offsetPairs u).map (fun p =>
    cellToNat (u.cells.getD
      (get_index u ((row + p.1) % u.height) ((column + p.2) % u.width)) Cell.Dead))).sum

/-- The neighbour count with the deltas applied to the opposite coordinate:
the column delta `p.2` offsets the row (mod `height`), the row delta `p.1`
offsets the column (mod `width`).  This is what the source computes. -/
def specNeighbourCountSwapped (u : Universe) (row column : Nat) : Nat :=
  ((offsetPairs u).map (fun p =>
    cellToNat (u.cells.getD
      (get_index u ((row + p.2) % u.height) ((column + p.1) % u.width)) Cell.Dead))).sum

/-- The classic rule set as claim C2 words it: a live cell with fewer than
2 live neighbours dies, with 2 or 3 survives, with more than 3 dies; a dead
cell with exactly 3 becomes alive; every other cell is unchanged. -/
def ruleSpec (cell : Cell) (n : Nat) : Cell :=
  match cell with
  | Cell.Alive => if n < 2 then Cell.Dead else if n ≤ 3 then Cell.Alive else Cell.Dead
  | Cell.Dead => if n = 3 then Cell.Alive else Cell.Dead

/-- An `n × n` buffer whose only alive cells are the three listed indices. -/
def threeCells (n p1 p2 p3 : Nat) : List Cell :=
  (List.range (n * n)).map (fun k => if k = p1 ∨ k = p2 ∨ k = p3 then Cell.Alive else Cell.Dead)

/-- The horizontal blinker of claim C3: an `n × n` universe whose only alive
cells are `(r, c-1)`, `(r, c)`, `(r, c+1)`. -/
def blinkerH (n r c : Nat) : Universe :=
  Universe.mk n n (threeCells n (r * n + (c - 1)) (r * n + c) (r * n + (c + 1)))

/-- The vertical blinker of claim C3: an `n × n` universe whose only alive
cells are `(r-1, c)`, `(r, c)`, `(r+1, c)`. -/
def blinkerV (n r c : Nat) : Universe :=
  Universe.mk n n (threeCells n ((r - 1) * n + c) (r * n + c) ((r + 1) * n + c))

/-- Splitting a character stream at every newline (each `'\n'` terminates a
segment; a trailing newline therefore contributes a final empty segment). -/
def splitLines (l : List Char) : List (List Char) :=
  match l with
  | [] => [[]]
  | ch :: rest =>
    if ch = '\n' then [] :: splitLines rest
    else
      match splitLines rest with
      | [] => [[ch]]
      | x :: xs => (ch :: x) :: xs

/-- The lines of `render`'s output: the newline-separated segments, without
the empty segment that follows the final newline. -/
def renderedLines (u : Universe) : List (List Char) :=
  (splitLines (render u).data).dropLast

/-! ## Concrete universes used in counterexamples and witnesses -/

/-- A 3-wide, 1-high universe with a single alive cell at `(0, 0)`. -/
def uWide : Universe := Universe.mk 3 1 [Cell.Alive, Cell.Dead, Cell.Dead]

/-- The 1×1 universe whose single cell is alive. -/
def uOne : Universe := Universe.mk 1 1 [Cell.Alive]

/-- A 3-wide, 2-high all-dead universe. -/
def uFlat : Universe :=
  Universe.mk 3 2 [Cell.Dead, Cell.Dead, Cell.Dead, Cell.Dead, Cell.Dead, Cell.Dead]

/-! ## Helper lemmas -/

theorem ite_cases {α} (c : Prop) [Decidable c] (a b : α) :
    (c ∧ (if c then a else b) = a) ∨ (¬c ∧ (if c then a else b) = b) := by
  by_cases h : c <;> simp [h]

/-- Row-major flattening is injective on in-range coordinates. -/
theorem flat_eq_iff (n a b x y : Nat) (hb : b < n) (hy : y < n) :
    a * n + b = x * n + y ↔ a = x ∧ b = y := by
  constructor
  · intro h
    have hn : 0 < n := by omega
    have ha : a = x := by
      have h1 : (n * a + b) / n = a + b / n := Nat.mul_add_div hn a b
      have h2 : (n * x + y) / n = x + y / n := Nat.mul_add_div hn x y
      have hb0 : b / n = 0 := Nat.div_eq_of_lt hb
      have hy0 : y / n = 0 := Nat.div_eq_of_lt hy
      have hcomm : n * a + b = n * x + y := by
        rw [Nat.mul_comm n a, Nat.mul_comm n x]; exact h
      have := congrArg (fun z => z / n) hcomm
      simp only [h1, h2, hb0, hy0] at this
      omega
    constructor
    · exact ha
    · subst ha; omega
  · rintro ⟨rfl, rfl⟩; rfl

theorem mod_down_eq (n x y : Nat) (hx : x < n) (hy : y + 1 < n) :
    (x + (n - 1)) % n = y ↔ x = y + 1 := by
  rcases Nat.eq_zero_or_pos x with h0 | hpos
  · subst h0
    rw [Nat.zero_add, Nat.mod_eq_of_lt (by omega : n - 1 < n)]
    omega
  · have hx1 : x + (n - 1) = (x - 1) + n := by omega
    rw [hx1, Nat.add_mod_right, Nat.mod_eq_of_lt (by omega : x - 1 < n)]
    omega

theorem mod_up_eq (n x y : Nat) (hx : x < n) (hy1 : 1 ≤ y) (hy : y < n) :
    (x + 1) % n = y ↔ x + 1 = y := by
  rcases Nat.lt_or_ge (x + 1) n with h | h
  · rw [Nat.mod_eq_of_lt h]
  · have hxn : x + 1 = n := by omega
    rw [hxn, Nat.mod_self]
    omega

theorem foldl_id {α β} (l : List β) (a : α) : l.foldl (fun x _ => x) a = a := by
  induction l generalizing a with
  | nil => rfl
  | cons x t ih => simpa using ih a

theorem foldl_congr_mem {α β} (l : List β) (f g : α → β → α) (a : α)
    (h : ∀ x b, b ∈ l → f x b = g x b) : l.foldl f a = l.foldl g a := by
  induction l generalizing a with
  | nil => rfl
  | cons x t ih =>
    simp only [List.foldl_cons]
    rw [h a x (by simp)]
    exact ih _ (fun y b hb => h y b (by simp [hb]))

theorem foldl_length_inv {β} (l : List β) (init : List Cell)
    (step : List Cell → β → List Cell) (hstep : ∀ a b, (step a b).length = a.length) :
    (l.foldl step init).length = init.length := by
  induction l generalizing init with
  | nil => rfl
  | cons x t ih => simp only [List.foldl_cons, ih, hstep]

/-- Effect of folding `List.set` at a list of indices with an index-determined
value: position `j` holds `f j` when `j` was visited in range, and its prior
value otherwise. -/
theorem foldl_set_getElem? (f : Nat → Cell) :
    ∀ (idxs : List Nat) (l : List Cell) (j : Nat),
      (idxs.foldl (fun nx i => nx.set i (f i)) l)[j]? =
        if j ∈ idxs ∧ j < l.length then some (f j) else l[j]? := by
  intro idxs
  induction idxs with
  | nil => intro l j; simp
  | cons i t ih =>
    intro l j
    simp only [List.foldl_cons]
    rw [ih]
    by_cases hij : i = j
    · subst hij
      by_cases hi : i < l.length
      · by_cases hmem : i ∈ t <;> simp [hmem, hi, List.getElem?_set]
      · have : l[i]? = none := List.getElem?_eq_none (by omega)
        by_cases hmem : i ∈ t <;> simp [hmem, hi, List.getElem?_set, this]
    · rw [List.getElem?_set_ne hij]
      by_cases hmem : j ∈ t <;> simp [hmem, hij, Ne.symm hij, List.length_set]

/-- Collapsing the row/column double loop into a single loop over the
row-major index range. -/
theorem nested_fold_flat {α} (g : α → Nat → α) (h w : Nat) (init : α) :
    (List.range h).foldl (fun a r => (List.range w).foldl (fun a c => g a (r * w + c)) a) init
      = (List.range (h * w)).foldl g init := by
  induction h generalizing init with
  | zero => simp
  | succ m ih =>
    rw [List.range_succ, List.foldl_append, ih, Nat.succ_mul, List.range_add,
      List.foldl_append, List.foldl_map]
    rfl

/-- The value `tick` computes for the cell at flat index `idx`: it is a
function of the pre-tick buffer only. -/
def next_at (u : Universe) (idx : Nat) : Cell :=
  next_cell (u.cells.getD idx Cell.Dead)
    (live_neighbour_count u (idx / u.width) (idx % u.width))

theorem tick_cells_length (u : Universe) : (tick u).cells.length = u.cells.length := by
  show ((List.range u.height).foldl _ u.cells).length = _
  exact foldl_length_inv _ _ _
    (fun a b => foldl_length_inv _ a _ (fun x y => List.length_set x _ _))

/-- Pointwise description of the buffer `tick` produces: inside the swept
index range the new value is `next_at` of the old state, elsewhere the old
buffer shows through. -/
theorem tick_cells_getElem? (u : Universe) (j : Nat) :
    (tick u).cells[j]? =
      if j < u.height * u.width ∧ j < u.cells.length then some (next_at u j)
      else u.cells[j]? := by
  have hconv : (List.range u.height).foldl (fun next row =>
        (List.range u.width).foldl (fun next col =>
          next.set (get_index u row col)
            (next_cell (u.cells.getD (get_index u row col) Cell.Dead)
              (live_neighbour_count u row col))) next) u.cells
      = (List.range (u.height * u.width)).foldl (fun nx i => nx.set i (next_at u i)) u.cells := by
    rw [← nested_fold_flat]
    apply foldl_congr_mem
    intro x r _
    apply foldl_congr_mem
    intro y c hc
    have hcw : c < u.width := List.mem_range.mp hc
    have hw : 0 < u.width := by omega
    have hdiv : (r * u.width + c) / u.width = r := by
      rw [Nat.mul_comm, Nat.mul_add_div hw, Nat.div_eq_of_lt hcw, Nat.add_zero]
    have hmod : (r * u.width + c) % u.width = c := by
      rw [Nat.mul_comm, Nat.mul_add_mod]
      exact Nat.mod_eq_of_lt hcw
    simp [next_at, get_index, hdiv, hmod]
  show ((List.range u.height).foldl _ u.cells)[j]? = _
  rw [hconv, foldl_set_getElem? (next_at u)]
  simp [List.mem_range]

/-! ## Claim C5: the dimension invariant -/

/-- C5: after construction via `new`, after `set_width` or `set_height`, and
after a `tick` from any state satisfying the invariant, the length of the
cell buffer equals `width * height`. -/
theorem c5_dimension_invariant :
    (new.cells.length = new.width * new.height) ∧
    (∀ u w, (set_width u w).cells.length = (set_width u w).width * (set_width u w).height) ∧
    (∀ u h, (set_height u h).cells.length = (set_height u h).width * (set_height u h).height) ∧
    (∀ u : Universe, u.cells.length = u.width * u.height →
      (tick u).cells.length = (tick u).width * (tick u).height) := by
  refine ⟨by simp [new], fun u w => by simp [set_width], fun u h => by simp [set_height], ?_⟩
  intro u hlen
  rw [tick_cells_length]
  exact hlen

/-- Witness for C5 at a concrete universe. -/
theorem c5_dimension_invariant_witness :
    uFlat.cells.length = uFlat.width * uFlat.height ∧
    (tick uFlat).cells.length = (tick uFlat).width * (tick uFlat).height :=
  ⟨by decide, c5_dimension_invariant.2.2.2 uFlat (by decide)⟩

/-! ## Claim C6: resizing clears the grid -/

/-- C6: every cell of the buffer produced by `set_width` or `set_height` is
`Dead`, whatever the prior configuration was. -/
theorem c6_resize_clears (u : Universe) (n j : Nat) :
    (j < (set_width u n).cells.length → (set_width u n).cells[j]? = some Cell.Dead) ∧
    (j < (set_height u n).cells.length → (set_height u n).cells[j]? = some Cell.Dead) := by
  constructor <;> intro hj
  · simp only [set_width, List.length_map, List.length_range] at hj ⊢
    rw [List.getElem?_map, List.getElem?_range hj]
    rfl
  · simp only [set_height, List.length_map, List.length_range] at hj ⊢
    rw [List.getElem?_map, List.getElem?_range hj]
    rfl

/-- Witness for C6: resizing a universe with a live cell leaves cell 0 dead. -/
theorem c6_resize_clears_witness : (set_width uOne 2).cells[0]? = some Cell.Dead :=
  (c6_resize_clears uOne 2 0).1 (by decide)

/-! ## Claim C10: zero-sized resize followed by tick -/

/-- C10: after `set_width 0` or `set_height 0` the buffer is empty, and a
subsequent `tick` performs zero loop iterations (so `live_neighbour_count`,
the only place a `%` by a dimension occurs, is never invoked) and leaves
width, height and cells unchanged. -/
theorem c10_zero_dimension_tick (u : Universe) :
    (set_width u 0).cells = [] ∧ tick (set_width u 0) = set_width u 0 ∧
    (set_height u 0).cells = [] ∧ tick (set_height u 0) = set_height u 0 := by
  refine ⟨by simp [set_width], ?_, by simp [set_height], ?_⟩
  · simp [tick, set_width, foldl_id]
  · simp [tick, set_height, foldl_id]

/-! ## Claim C4: the 1×1 universe -/

/-- C4 counterexample: on the 1×1 universe whose single cell is `Alive`,
`live_neighbour_count 0 0` returns 5, not 0: the offset value lists collapse
to `[0, 0, 1]`, so only the 4 pairs whose values are `(0, 0)` are skipped
and the remaining 5 all resolve to the cell itself. -/
theorem c4_one_by_one_counterexample :
    live_neighbour_count uOne 0 0 = 5 ∧ live_neighbour_count uOne 0 0 ≠ 0 := by
  decide

/-- C4 amended: on a 1×1 universe the count is 0 when the cell is `Dead`
but 5 when it is `Alive` (5 of the 9 offset pairs survive the value-based
`(0,0)` skip, and each resolves to the cell itself). -/
theorem c4_one_by_one_amended (u : Universe) (c0 : Cell) (hw : u.width = 1)
    (hh : u.height = 1) (hc : u.cells = [c0]) :
    live_neighbour_count u 0 0 = 5 * cellToNat c0 := by
  obtain ⟨w, h, cs⟩ := u
  dsimp only at hw hh hc
  subst hw; subst hh; subst hc
  cases c0 <;> decide

/-- Witness for C4's amended statement at the alive 1×1 universe. -/
theorem c4_one_by_one_amended_witness :
    live_neighbour_count uOne 0 0 = 5 * cellToNat Cell.Alive :=
  c4_one_by_one_amended uOne Cell.Alive rfl rfl rfl

/-! ## Claim C1: what `live_neighbour_count` computes -/

/-- C1 counterexample: on the 3-wide, 1-high universe with a single alive
cell, the claimed formula (row delta mod height, column delta mod width)
yields 1 at `(0, 0)`, but `live_neighbour_count` returns 4. -/
theorem c1_neighbour_count_counterexample :
    live_neighbour_count uWide 0 0 = 4 ∧ specNeighbourCount uWide 0 0 = 1 ∧
    live_neighbour_count uWide 0 0 ≠ specNeighbourCount uWide 0 0 := by
  decide

/-- C1 amended: `live_neighbour_count` sums the cells of the 9 offset pairs
with the `(0,0)` value pair skipped, but applies the column delta (drawn
from `{width-1, 0, 1}`) to the row coordinate mod `height` and the row
delta (drawn from `{height-1, 0, 1}`) to the column coordinate mod `width`
— the opposite pairing from the claim; consequently it agrees with the
claimed formula whenever `width = height`. -/
theorem c1_neighbour_count_amended :
    (∀ (u : Universe) (row col : Nat),
      live_neighbour_count u row col = specNeighbourCountSwapped u row col) ∧
    (∀ (u : Universe) (row col : Nat), u.width = u.height →
      row < u.height → col < u.width →
      live_neighbour_count u row col = specNeighbourCount u row col) := by
  constructor
  · intro u row col
    by_cases hh : u.height - 1 = 0 <;> by_cases hw : u.width - 1 = 0 <;>
    · have hhb : (u.height - 1 == 0) = decide (u.height - 1 = 0) := rfl
      have hwb : (u.width - 1 == 0) = decide (u.width - 1 = 0) := rfl
      simp [live_neighbour_count, specNeighbourCountSwapped, offsetPairs, hh, hw, hhb, hwb,
        List.foldl_cons, List.foldl_nil, List.filter_cons] <;> omega
  · intro u row col hsq _ _
    by_cases hh : u.height - 1 = 0 <;>
    · have hhb : (u.height - 1 == 0) = decide (u.height - 1 = 0) := rfl
      simp [live_neighbour_count, specNeighbourCount, offsetPairs, hh, hsq, hhb, get_index,
        List.foldl_cons, List.foldl_nil, List.filter_cons] <;> omega

/-- Witness for C1's amended statement: the swapped formula on a non-square
universe, and agreement with the claimed formula on a square universe. -/
theorem c1_neighbour_count_amended_witness :
    live_neighbour_count uFlat 1 2 = specNeighbourCountSwapped uFlat 1 2 ∧
    live_neighbour_count (blinkerH 5 2 2) 2 2 = specNeighbourCount (blinkerH 5 2 2) 2 2 :=
  ⟨c1_neighbour_count_amended.1 uFlat 1 2,
    c1_neighbour_count_amended.2 (blinkerH 5 2 2) 2 2 rfl (by decide) (by decide)⟩

/-! ## Claim C9: out-of-range coordinates -/

/-- C9 counterexample: on the 3×2 universe, the coordinate `(0, 4)` has
column 4 ≥ width 3, yet `set_cells` does not fault: it silently writes
in-bounds at flat index 4, i.e. cell `(1, 1)`. -/
theorem c9_out_of_range_counterexample :
    uFlat.width ≤ 4 ∧ uFlat.cells.length = uFlat.width * uFlat.height ∧
    set_cells uFlat [(0, 4)] =
      some (Universe.mk 3 2
        [Cell.Dead, Cell.Dead, Cell.Dead, Cell.Dead, Cell.Alive, Cell.Dead]) := by
  decide

/-- C9 amended: under the length invariant, a single-coordinate `set_cells`
faults (fatally, modelled by `none`) exactly when the flattened index
`row * width + column` reaches `width * height`; in particular it always
faults when `row ≥ height`, but a coordinate with `column ≥ width` whose
flattened index stays below `width * height` is a silent in-bounds write to
a different cell. -/
theorem c9_out_of_range_amended (u : Universe) (r c : Nat)
    (hlen : u.cells.length = u.width * u.height) :
    (set_cells u [(r, c)] = none ↔ u.width * u.height ≤ r * u.width + c) ∧
    (u.height ≤ r → set_cells u [(r, c)] = none) := by
  have hstep : set_cells u [(r, c)] =
      if (r * u.width) + c < u.cells.length then
        some (Universe.mk u.width u.height (u.cells.set ((r * u.width) + c) Cell.Alive))
      else none := by
    simp [set_cells, get_index]
  have hiff : set_cells u [(r, c)] = none ↔ u.width * u.height ≤ r * u.width + c := by
    rw [hstep]
    split_ifs with h
    · simp only [hlen] at h
      constructor
      · intro hcontra; cases hcontra
      · omega
    · simp only [hlen] at h
      constructor
      · intro _; omega
      · intro _; rfl
  refine ⟨hiff, fun hr => hiff.mpr ?_⟩
  have : u.height * u.width ≤ r * u.width := Nat.mul_le_mul_right _ hr
  have hcomm : u.width * u.height = u.height * u.width := Nat.mul_comm _ _
  omega

/-- Witness for C9's amended statement at a concrete universe and row. -/
theorem c9_out_of_range_amended_witness :
    (set_cells uFlat [(2, 0)] = none ↔ uFlat.width * uFlat.height ≤ 2 * uFlat.width + 0) ∧
    (uFlat.height ≤ 2 → set_cells uFlat [(2, 0)] = none) :=
  c9_out_of_range_amended uFlat 2 0 (by decide)

/-! ## Claim C7: `set_cells` batch mutation -/

/-- The universe a successful `set_cells` returns. -/
def set_cells_result (u : Universe) (coords : List (Nat × Nat)) : Universe :=
  (set_cells u coords).getD u

theorem set_cells_spec (coords : List (Nat × Nat)) : ∀ (u : Universe),
    u.cells.length = u.width * u.height →
    (∀ p ∈ coords, p.1 < u.height ∧ p.2 < u.width) →
    ∃ u', set_cells u coords = some u' ∧ u'.width = u.width ∧ u'.height = u.height ∧
      u'.cells.length = u.cells.length ∧
      ∀ j, u'.cells[j]? =
        if coords.any (fun p => decide (p.1 * u.width + p.2 = j)) then some Cell.Alive
        else u.cells[j]? := by
  induction coords with
  | nil => exact fun u hlen hin => ⟨u, rfl, rfl, rfl, rfl, by simp⟩
  | cons p t ih =>
    obtain ⟨r, c⟩ := p
    intro u hlen hin
    have hr : r < u.height := (hin (r, c) (by simp)).1
    have hc : c < u.width := (hin (r, c) (by simp)).2
    have hidx : r * u.width + c < u.cells.length := by
      have h1 : r * u.width + c < (r + 1) * u.width := by rw [Nat.succ_mul]; omega
      have h2 : (r + 1) * u.width ≤ u.height * u.width := Nat.mul_le_mul_right _ hr
      have hcomm : u.width * u.height = u.height * u.width := Nat.mul_comm _ _
      omega
    have hstep : set_cells u ((r, c) :: t) =
        set_cells (Universe.mk u.width u.height
          (u.cells.set (r * u.width + c) Cell.Alive)) t := by
      simp [set_cells, get_index, hidx]
    obtain ⟨u', h1, h2, h3, h4, h5⟩ :=
      ih (Universe.mk u.width u.height (u.cells.set (r * u.width + c) Cell.Alive))
        (by simp [hlen]) (fun q hq => hin q (by simp [hq]))
    refine ⟨u', by rw [hstep]; exact h1, h2, h3, by simpa using h4, ?_⟩
    intro j
    rw [h5 j]
    by_cases hj : r * u.width + c = j
    · subst hj
      by_cases ht : t.any (fun p => decide (p.1 * u.width + p.2 = r * u.width + c))
      · simp [ht]
      · simp [ht, List.getElem?_set, hidx]
    · by_cases ht : t.any (fun p => decide (p.1 * u.width + p.2 = j))
      · simp [ht]
      · simp [ht, hj, List.getElem?_set_ne hj]

/-- C7: with every coordinate in range, `set_cells` succeeds, preserves the
dimensions and the buffer length, sets exactly the listed cells alive, and
leaves every other position at its prior value. -/
theorem c7_set_cells_exact (coords : List (Nat × Nat)) (u : Universe) (j : Nat)
    (hlen : u.cells.length = u.width * u.height)
    (hin : ∀ p ∈ coords, p.1 < u.height ∧ p.2 < u.width) :
    set_cells u coords = some (set_cells_result u coords) ∧
    (set_cells_result u coords).width = u.width ∧
    (set_cells_result u coords).height = u.height ∧
    (set_cells_result u coords).cells.length = u.cells.length ∧
    (set_cells_result u coords).cells[j]? =
      (if coords.any (fun p => decide (get_index u p.1 p.2 = j)) then some Cell.Alive
       else u.cells[j]?) := by
  obtain ⟨u', h1, h2, h3, h4, h5⟩ := set_cells_spec coords u hlen hin
  have hres : set_cells_result u coords = u' := by
    rw [set_cells_result, h1]
    rfl
  rw [hres, h1]
  exact ⟨rfl, h2, h3, h4, h5 j⟩

/-- Witness for C7 at a concrete universe, coordinate list and position. -/
theorem c7_set_cells_exact_witness :
    set_cells uFlat [(1, 2)] = some (set_cells_result uFlat [(1, 2)]) ∧
    (set_cells_result uFlat [(1, 2)]).width = uFlat.width ∧
    (set_cells_result uFlat [(1, 2)]).height = uFlat.height ∧
    (set_cells_result uFlat [(1, 2)]).cells.length = uFlat.cells.length ∧
    (set_cells_result uFlat [(1, 2)]).cells[5]? =
      (if [((1 : Nat), (2 : Nat))].any (fun p => decide (get_index uFlat p.1 p.2 = 5))
       then some Cell.Alive else uFlat.cells[5]?) :=
  c7_set_cells_exact [(1, 2)] uFlat 5 (by decide) (by decide)

/-! ## Claim C2: the tick transition -/

/-- The sequential `match` of the source and the rule table of the claim
agree on every cell/count pair. -/
theorem next_cell_eq_ruleSpec (cell : Cell) (n : Nat) : next_cell cell n = ruleSpec cell n := by
  cases cell <;> simp [next_cell, ruleSpec] <;> split_ifs <;> first | rfl | omega

theorem get_index_div (u : Universe) (r c : Nat) (hc : c < u.width) :
    get_index u r c / u.width = r := by
  have hw : 0 < u.width := by omega
  rw [get_index, Nat.mul_comm, Nat.mul_add_div hw, Nat.div_eq_of_lt hc, Nat.add_zero]

theorem get_index_mod (u : Universe) (r c : Nat) (hc : c < u.width) :
    get_index u r c % u.width = c := by
  rw [get_index, Nat.mul_comm, Nat.mul_add_mod]
  exact Nat.mod_eq_of_lt hc

/-- C2: `tick` keeps the dimensions and the buffer length, and the new value
of every in-range cell is the claimed rule applied to that cell's pre-tick
state and pre-tick live-neighbour count (the right-hand side mentions only
`u`, the pre-tick universe: no overwritten cell is ever read). -/
theorem c2_tick_simultaneous (u : Universe) (hlen : u.cells.length = u.width * u.height)
    (r c : Nat) (hr : r < u.height) (hc : c < u.width) :
    (tick u).width = u.width ∧ (tick u).height = u.height ∧
    (tick u).cells.length = u.cells.length ∧
    (tick u).cells[get_index u r c]? =
      some (ruleSpec (u.cells.getD (get_index u r c) Cell.Dead)
        (live_neighbour_count u r c)) := by
  have hidx1 : get_index u r c < u.height * u.width := by
    rw [get_index]
    have h1 : r * u.width + c < (r + 1) * u.width := by rw [Nat.succ_mul]; omega
    have h2 : (r + 1) * u.width ≤ u.height * u.width := Nat.mul_le_mul_right _ hr
    omega
  have hidx2 : get_index u r c < u.cells.length := by
    have hcomm : u.width * u.height = u.height * u.width := Nat.mul_comm _ _
    omega
  refine ⟨rfl, rfl, tick_cells_length u, ?_⟩
  rw [tick_cells_getElem?, if_pos ⟨hidx1, hidx2⟩]
  rw [next_at, get_index_div u r c hc, get_index_mod u r c hc, next_cell_eq_ruleSpec]

/-- Witness for C2 at a concrete universe and cell. -/
theorem c2_tick_simultaneous_witness :
    (tick uFlat).width = uFlat.width ∧ (tick uFlat).height = uFlat.height ∧
    (tick uFlat).cells.length = uFlat.cells.length ∧
    (tick uFlat).cells[get_index uFlat 1 2]? =
      some (ruleSpec (uFlat.cells.getD (get_index uFlat 1 2) Cell.Dead)
        (live_neighbour_count uFlat 1 2)) :=
  c2_tick_simultaneous uFlat (by decide) 1 2 (by decide) (by decide)

/-! ## Claim C8: rendering -/

theorem symbol_ne_newline (cl : Cell) : symbol cl ≠ '\n' := by
  cases cl <;> decide

/-- A buffer of length `w * hgt` splits into `hgt` chunks, the `r`-th being
the `w` cells starting at flat index `r * w`. -/
theorem chunks_spec (w hgt : Nat) (hw : 0 < w) : ∀ l : List Cell, l.length = w * hgt →
    (chunks w l).length = hgt ∧
    ∀ r, r < hgt → (chunks w l)[r]? = some ((l.drop (r * w)).take w) := by
  induction hgt with
  | zero =>
    intro l hl
    have : l = [] := List.eq_nil_of_length_eq_zero (by omega)
    subst this
    rw [chunks]
    simp
  | succ m ih =>
    intro l hl
    have hlpos : l.length = w * (m + 1) := hl
    have hne : ¬(l = [] ∨ w = 0) := by
      rintro (h | h)
      · rw [h] at hlpos; simp at hlpos; omega
      · omega
    rw [chunks, dif_neg hne]
    have hdrop : (l.drop w).length = w * m := by
      rw [List.length_drop]
      have : w * (m + 1) = w * m + w := by ring
      omega
    obtain ⟨ihlen, ihget⟩ := ih (l.drop w) hdrop
    refine ⟨by simp [ihlen], ?_⟩
    intro r hr
    cases r with
    | zero => simp
    | succ k =>
      have hk : k < m := by omega
      have := ihget k hk
      simp only [List.getElem?_cons_succ, this, List.drop_drop]
      have : w + k * w = (k + 1) * w := by ring
      rw [this]

theorem foldl_append_eq (f : List Cell → List Char) :
    ∀ (l : List (List Cell)) (acc : List Char),
      l.foldl (fun a x => a ++ f x) acc = acc ++ (l.map f).flatten := by
  intro l
  induction l with
  | nil => intro acc; simp
  | cons x t ih => intro acc; simp [ih]

theorem splitLines_append (a t : List Char) (h : '\n' ∉ a) :
    splitLines (a ++ '\n' :: t) = a :: splitLines t := by
  induction a with
  | nil => simp [splitLines]
  | cons ch a' ih =>
    have hch : ¬(ch = '\n') := by
      intro hc
      exact h (by simp [hc])
    have ha' : '\n' ∉ a' := fun hm => h (by simp [hm])
    simp only [List.cons_append, splitLines, if_neg hch]
    have hrw : splitLines (a'.append ('\n' :: t)) = a' :: splitLines t := ih ha'
    rw [hrw]

theorem splitLines_flatten (rows : List (List Char)) (h : ∀ row ∈ rows, '\n' ∉ row) :
    splitLines ((rows.map (fun row => row ++ ['\n'])).flatten) = rows ++ [[]] := by
  induction rows with
  | nil => simp [splitLines]
  | cons row rest ih =>
    have hrow : '\n' ∉ row := h row (by simp)
    have hrest : ∀ q ∈ rest, '\n' ∉ q := fun q hq => h q (by simp [hq])
    simp only [List.map_cons, List.flatten_cons, List.append_assoc, List.singleton_append]
    rw [splitLines_append row _ hrow, ih hrest]
    rfl

/-- C8: the rendered text splits into exactly `height` lines; line `r` is
the glyph image of the buffer slice for row `r`, has exactly `width`
glyphs, and its glyph at column `c` is the (injective on cell states)
symbol of `cells[r * width + c]`. -/
theorem c8_render_consistency (u : Universe) (hlen : u.cells.length = u.width * u.height)
    (hw : 1 ≤ u.width) (hh : 1 ≤ u.height) (r c : Nat) (hr : r < u.height) (hc : c < u.width) :
    (renderedLines u).length = u.height ∧
    (renderedLines u)[r]? = some (((u.cells.drop (r * u.width)).take u.width).map symbol) ∧
    (((u.cells.drop (r * u.width)).take u.width).map symbol).length = u.width ∧
    (((u.cells.drop (r * u.width)).take u.width).map symbol)[c]? =
      some (symbol (u.cells.getD (get_index u r c) Cell.Dead)) ∧
    symbol Cell.Alive ≠ symbol Cell.Dead := by
  have hwpos : 0 < u.width := hw
  obtain ⟨hclen, hcget⟩ := chunks_spec u.width u.height hwpos u.cells (by omega)
  have hrows : renderedLines u =
      (chunks u.width u.cells).map (fun line => line.map symbol) := by
    have h1 : renderChars u =
        (((chunks u.width u.cells).map (fun line => line.map symbol)).map
          (fun row => row ++ ['\n'])).flatten := by
      rw [renderChars, foldl_append_eq (fun line => line.map symbol ++ ['\n'])]
      simp only [List.nil_append, List.map_map]
      rfl
    have hnonl : ∀ row ∈ (chunks u.width u.cells).map (fun line => line.map symbol),
        '\n' ∉ row := by
      intro row hrow
      simp only [List.mem_map] at hrow
      obtain ⟨line, _, rfl⟩ := hrow
      intro hmem
      simp only [List.mem_map] at hmem
      obtain ⟨cl, _, hcl⟩ := hmem
      exact symbol_ne_newline cl hcl
    show (splitLines (String.mk (renderChars u)).data).dropLast = _
    rw [show (String.mk (renderChars u)).data = renderChars u from rfl, h1,
      splitLines_flatten _ hnonl, List.dropLast_concat]
  have hslice : (chunks u.width u.cells)[r]? = some ((u.cells.drop (r * u.width)).take u.width) :=
    hcget r hr
  have hlenslice : ((u.cells.drop (r * u.width)).take u.width).length = u.width := by
    rw [List.length_take, List.length_drop]
    have h1 : (r + 1) * u.width ≤ u.height * u.width := Nat.mul_le_mul_right _ hr
    have h2 : (r + 1) * u.width = r * u.width + u.width := Nat.succ_mul _ _
    have h3 : u.width * u.height = u.height * u.width := Nat.mul_comm _ _
    omega
  refine ⟨by rw [hrows, List.length_map, hclen], ?_, ?_, ?_, by decide⟩
  · rw [hrows, List.getElem?_map, hslice]
    rfl
  · rw [List.length_map, hlenslice]
  · have hidx : get_index u r c < u.cells.length := by
      have h1 : (r + 1) * u.width ≤ u.height * u.width := Nat.mul_le_mul_right _ hr
      have h2 : (r + 1) * u.width = r * u.width + u.width := Nat.succ_mul _ _
      have h3 : u.width * u.height = u.height * u.width := Nat.mul_comm _ _
      rw [get_index]
      omega
    rw [List.getElem?_map, List.getElem?_take, if_pos hc, List.getElem?_drop,
      List.getElem?_eq_getElem (by rw [get_index] at hidx; exact hidx),
      List.getD_eq_getElem u.cells Cell.Dead hidx]
    rfl

/-- Witness for C8 at a concrete universe, line and column. -/
theorem c8_render_consistency_witness :
    (renderedLines uFlat).length = uFlat.height ∧
    (renderedLines uFlat)[1]? =
      some (((uFlat.cells.drop (1 * uFlat.width)).take uFlat.width).map symbol) ∧
    (((uFlat.cells.drop (1 * uFlat.width)).take uFlat.width).map symbol).length = uFlat.width ∧
    (((uFlat.cells.drop (1 * uFlat.width)).take uFlat.width).map symbol)[2]? =
      some (symbol (uFlat.cells.getD (get_index uFlat 1 2) Cell.Dead)) ∧
    symbol Cell.Alive ≠ symbol Cell.Dead :=
  c8_render_consistency uFlat (by decide) (by decide) (by decide) 1 2 (by decide) (by decide)

def nbTerm (u : Universe) (row col dr dc : Nat) : Nat :=
  cellToNat (u.cells.getD
    (get_index u ((row + dc) % u.height) ((col + dr) % u.width)) Cell.Dead)

theorem threeCells_getD (n p1 p2 p3 k : Nat) (hk : k < n * n) :
    (threeCells n p1 p2 p3).getD k Cell.Dead =
      if k = p1 ∨ k = p2 ∨ k = p3 then Cell.Alive else Cell.Dead := by
  rw [threeCells, List.getD_eq_getElem?_getD, List.getElem?_map, List.getElem?_range hk]
  rfl

theorem lnc_unfold (u : Universe) (row col : Nat) (hh : u.height - 1 ≠ 0) (hw : u.width - 1 ≠ 0) :
    live_neighbour_count u row col =
      nbTerm u row col (u.height - 1) (u.width - 1) + nbTerm u row col (u.height - 1) 0
      + nbTerm u row col (u.height - 1) 1 + nbTerm u row col 0 (u.width - 1)
      + nbTerm u row col 0 1 + nbTerm u row col 1 (u.width - 1)
      + nbTerm u row col 1 0 + nbTerm u row col 1 1 := by
  simp [live_neighbour_count, nbTerm, hh, hw, List.foldl_cons, List.foldl_nil]

theorem nbTerm_threeCells (n p1 p2 p3 i j dr dc : Nat) (hn : 0 < n) :
    nbTerm (Universe.mk n n (threeCells n p1 p2 p3)) i j dr dc =
      if ((i + dc) % n) * n + ((j + dr) % n) = p1 ∨ ((i + dc) % n) * n + ((j + dr) % n) = p2
        ∨ ((i + dc) % n) * n + ((j + dr) % n) = p3 then 1 else 0 := by
  have ha : (i + dc) % n < n := Nat.mod_lt _ hn
  have hb : (j + dr) % n < n := Nat.mod_lt _ hn
  have hk : ((i + dc) % n) * n + ((j + dr) % n) < n * n := by
    have h1 : ((i + dc) % n) * n + ((j + dr) % n) < (((i + dc) % n) + 1) * n := by
      rw [Nat.succ_mul]; omega
    have h2 : (((i + dc) % n) + 1) * n ≤ n * n := Nat.mul_le_mul_right _ (by omega)
    omega
  rw [nbTerm, get_index]
  show cellToNat ((threeCells n p1 p2 p3).getD _ Cell.Dead) = _
  rw [threeCells_getD n p1 p2 p3 _ hk]
  rw [apply_ite cellToNat]
  rfl

def hBlinkCount (r c i j : Nat) : Nat :=
  if i + 1 = r ∨ i = r + 1 then
    (if j = c then 3 else if j + 1 = c ∨ j = c + 1 then 2
     else if j + 2 = c ∨ j = c + 2 then 1 else 0)
  else if i = r then
    (if j = c then 2 else if j + 2 = c ∨ j + 1 = c ∨ j = c + 1 ∨ j = c + 2 then 1 else 0)
  else 0

set_option maxHeartbeats 3200000 in
theorem lnc_blinkerH (n r c i j : Nat) (hn : 5 ≤ n) (hr2 : 2 ≤ r) (hr3 : r + 3 ≤ n)
    (hc2 : 2 ≤ c) (hc3 : c + 3 ≤ n) (hi : i < n) (hj : j < n) :
    live_neighbour_count (blinkerH n r c) i j = hBlinkCount r c i j := by
  have hh : (blinkerH n r c).height - 1 ≠ 0 := by show n - 1 ≠ 0; omega
  have hw : (blinkerH n r c).width - 1 ≠ 0 := by show n - 1 ≠ 0; omega
  rw [lnc_unfold _ _ _ hh hw]
  have H := fun dr dc =>
    nbTerm_threeCells n (r * n + (c - 1)) (r * n + c) (r * n + (c + 1)) i j dr dc
      (by omega : 0 < n)
  simp only [blinkerH] at *
  simp only [H]
  have hB1 : (j + (n - 1)) % n < n := Nat.mod_lt _ (by omega)
  have hB3 : (j + 1) % n < n := Nat.mod_lt _ (by omega)
  have hjn : j % n = j := Nat.mod_eq_of_lt hj
  have hin : i % n = i := Nat.mod_eq_of_lt hi
  simp only [Nat.add_zero, hjn, hin]
  have F11 := fun a => flat_eq_iff n a ((j + (n - 1)) % n) r (c - 1) hB1 (by omega)
  have F12 := fun a => flat_eq_iff n a ((j + (n - 1)) % n) r c hB1 (by omega)
  have F13 := fun a => flat_eq_iff n a ((j + (n - 1)) % n) r (c + 1) hB1 (by omega)
  have F21 := fun a => flat_eq_iff n a j r (c - 1) hj (by omega)
  have F22 := fun a => flat_eq_iff n a j r c hj (by omega)
  have F23 := fun a => flat_eq_iff n a j r (c + 1) hj (by omega)
  have F31 := fun a => flat_eq_iff n a ((j + 1) % n) r (c - 1) hB3 (by omega)
  have F32 := fun a => flat_eq_iff n a ((j + 1) % n) r c hB3 (by omega)
  have F33 := fun a => flat_eq_iff n a ((j + 1) % n) r (c + 1) hB3 (by omega)
  simp only [F11, F12, F13, F21, F22, F23, F31, F32, F33]
  have Mdi : (i + (n - 1)) % n = r ↔ i = r + 1 := mod_down_eq n i r hi (by omega)
  have Mui : (i + 1) % n = r ↔ i + 1 = r := mod_up_eq n i r hi (by omega) (by omega)
  have MD1 : (j + (n - 1)) % n = c - 1 ↔ j = (c - 1) + 1 := mod_down_eq n j (c - 1) hj (by omega)
  have MD2 : (j + (n - 1)) % n = c ↔ j = c + 1 := mod_down_eq n j c hj (by omega)
  have MD3 : (j + (n - 1)) % n = c + 1 ↔ j = (c + 1) + 1 := mod_down_eq n j (c + 1) hj (by omega)
  have MU1 : (j + 1) % n = c - 1 ↔ j + 1 = c - 1 := mod_up_eq n j (c - 1) hj (by omega) (by omega)
  have MU2 : (j + 1) % n = c ↔ j + 1 = c := mod_up_eq n j c hj (by omega) (by omega)
  have MU3 : (j + 1) % n = c + 1 ↔ j + 1 = c + 1 := mod_up_eq n j (c + 1) hj (by omega) (by omega)
  simp only [Mdi, Mui, MD1, MD2, MD3, MU1, MU2, MU3, hBlinkCount]
  rcases (show i + 1 = r ∨ i = r ∨ i = r + 1 ∨ (i + 1 ≠ r ∧ i ≠ r ∧ i ≠ r + 1) from by omega) with hzi | hzi | hzi | hzi <;>
    rcases (show j + 2 = c ∨ j + 1 = c ∨ j = c ∨ j = c + 1 ∨ j = c + 2 ∨ (j + 2 ≠ c ∧ j + 1 ≠ c ∧ j ≠ c ∧ j ≠ c + 1 ∧ j ≠ c + 2) from by omega) with hzj | hzj | hzj | hzj | hzj | hzj
  · rw [if_neg (show ¬(i = r + 1 ∧ j = c - 1 + 1 ∨ i = r + 1 ∧ j = c + 1 ∨ i = r + 1 ∧ j = c + 1 + 1) by omega),
      if_neg (show ¬(i = r ∧ j = c - 1 + 1 ∨ i = r ∧ j = c + 1 ∨ i = r ∧ j = c + 1 + 1) by omega),
      if_neg (show ¬(i + 1 = r ∧ j = c - 1 + 1 ∨ i + 1 = r ∧ j = c + 1 ∨ i + 1 = r ∧ j = c + 1 + 1) by omega),
      if_neg (show ¬(i = r + 1 ∧ j = c - 1 ∨ i = r + 1 ∧ j = c ∨ i = r + 1 ∧ j = c + 1) by omega),
      if_neg (show ¬(i + 1 = r ∧ j = c - 1 ∨ i + 1 = r ∧ j = c ∨ i + 1 = r ∧ j = c + 1) by omega),
      if_neg (show ¬(i = r + 1 ∧ j + 1 = c - 1 ∨ i = r + 1 ∧ j + 1 = c ∨ i = r + 1 ∧ j + 1 = c + 1) by omega),
      if_neg (show ¬(i = r ∧ j + 1 = c - 1 ∨ i = r ∧ j + 1 = c ∨ i = r ∧ j + 1 = c + 1) by omega),
      if_pos (show i + 1 = r ∧ j + 1 = c - 1 ∨ i + 1 = r ∧ j + 1 = c ∨ i + 1 = r ∧ j + 1 = c + 1 by omega)]
    split_ifs <;> omega
  · rw [if_neg (show ¬(i = r + 1 ∧ j = c - 1 + 1 ∨ i = r + 1 ∧ j = c + 1 ∨ i = r + 1 ∧ j = c + 1 + 1) by omega),
      if_neg (show ¬(i = r ∧ j = c - 1 + 1 ∨ i = r ∧ j = c + 1 ∨ i = r ∧ j = c + 1 + 1) by omega),
      if_neg (show ¬(i + 1 = r ∧ j = c - 1 + 1 ∨ i + 1 = r ∧ j = c + 1 ∨ i + 1 = r ∧ j = c + 1 + 1) by omega),
      if_neg (show ¬(i = r + 1 ∧ j = c - 1 ∨ i = r + 1 ∧ j = c ∨ i = r + 1 ∧ j = c + 1) by omega),
      if_pos (show i + 1 = r ∧ j = c - 1 ∨ i + 1 = r ∧ j = c ∨ i + 1 = r ∧ j = c + 1 by omega),
      if_neg (show ¬(i = r + 1 ∧ j + 1 = c - 1 ∨ i = r + 1 ∧ j + 1 = c ∨ i = r + 1 ∧ j + 1 = c + 1) by omega),
      if_neg (show ¬(i = r ∧ j + 1 = c - 1 ∨ i = r ∧ j + 1 = c ∨ i = r ∧ j + 1 = c + 1) by omega),
      if_pos (show i + 1 = r ∧ j + 1 = c - 1 ∨ i + 1 = r ∧ j + 1 = c ∨ i + 1 = r ∧ j + 1 = c + 1 by omega)]
    split_ifs <;> omega
  · rw [if_neg (show ¬(i = r + 1 ∧ j = c - 1 + 1 ∨ i = r + 1 ∧ j = c + 1 ∨ i = r + 1 ∧ j = c + 1 + 1) by omega),
      if_neg (show ¬(i = r ∧ j = c - 1 + 1 ∨ i = r ∧ j = c + 1 ∨ i = r ∧ j = c + 1 + 1) by omega),
      if_pos (show i + 1 = r ∧ j = c - 1 + 1 ∨ i + 1 = r ∧ j = c + 1 ∨ i + 1 = r ∧ j = c + 1 + 1 by omega),
      if_neg (show ¬(i = r + 1 ∧ j = c - 1 ∨ i = r + 1 ∧ j = c ∨ i = r + 1 ∧ j = c + 1) by omega),
      if_pos (show i + 1 = r ∧ j = c - 1 ∨ i + 1 = r ∧ j = c ∨ i + 1 = r ∧ j = c + 1 by omega),
      if_neg (show ¬(i = r + 1 ∧ j + 1 = c - 1 ∨ i = r + 1 ∧ j + 1 = c ∨ i = r + 1 ∧ j + 1 = c + 1) by omega),
      if_neg (show ¬(i = r ∧ j + 1 = c - 1 ∨ i = r ∧ j + 1 = c ∨ i = r ∧ j + 1 = c + 1) by omega),
      if_pos (show i + 1 = r ∧ j + 1 = c - 1 ∨ i + 1 = r ∧ j + 1 = c ∨ i + 1 = r ∧ j + 1 = c + 1 by omega)]
    split_ifs <;> omega
  · rw [if_neg (show ¬(i = r + 1 ∧ j = c - 1 + 1 ∨ i = r + 1 ∧ j = c + 1 ∨ i = r + 1 ∧ j = c + 1 + 1) by omega),
      if_neg (show ¬(i = r ∧ j = c - 1 + 1 ∨ i = r ∧ j = c + 1 ∨ i = r ∧ j = c + 1 + 1) by omega),
      if_pos (show i + 1 = r ∧ j = c - 1 + 1 ∨ i + 1 = r ∧ j = c + 1 ∨ i + 1 = r ∧ j = c + 1 + 1 by omega),
      if_neg (show ¬(i = r + 1 ∧ j = c - 1 ∨ i = r + 1 ∧ j = c ∨ i = r + 1 ∧ j = c + 1) by omega),
      if_pos (show i + 1 = r ∧ j = c - 1 ∨ i + 1 = r ∧ j = c ∨ i + 1 = r ∧ j = c + 1 by omega),
      if_neg (show ¬(i = r + 1 ∧ j + 1 = c - 1 ∨ i = r + 1 ∧ j + 1 = c ∨ i = r + 1 ∧ j + 1 = c + 1) by omega),
      if_neg (show ¬(i = r ∧ j + 1 = c - 1 ∨ i = r ∧ j + 1 = c ∨ i = r ∧ j + 1 = c + 1) by omega),
      if_neg (show ¬(i + 1 = r ∧ j + 1 = c - 1 ∨ i + 1 = r ∧ j + 1 = c ∨ i + 1 = r ∧ j + 1 = c + 1) by omega)]
    split_ifs <;> omega
  · rw [if_neg (show ¬(i = r + 1 ∧ j = c - 1 + 1 ∨ i = r + 1 ∧ j = c + 1 ∨ i = r + 1 ∧ j = c + 1 + 1) by omega),
      if_neg (show ¬(i = r ∧ j = c - 1 + 1 ∨ i = r ∧ j = c + 1 ∨ i = r ∧ j = c + 1 + 1) by omega),
      if_pos (show i + 1 = r ∧ j = c - 1 + 1 ∨ i + 1 = r ∧ j = c + 1 ∨ i + 1 = r ∧ j = c + 1 + 1 by omega),
      if_neg (show ¬(i = r + 1 ∧ j = c - 1 ∨ i = r + 1 ∧ j = c ∨ i = r + 1 ∧ j = c + 1) by omega),
      if_neg (show ¬(i + 1 = r ∧ j = c - 1 ∨ i + 1 = r ∧ j = c ∨ i + 1 = r ∧ j = c + 1) by omega),
      if_neg (show ¬(i = r + 1 ∧ j + 1 = c - 1 ∨ i = r + 1 ∧ j + 1 = c ∨ i = r + 1 ∧ j + 1 = c + 1) by omega),
      if_neg (show ¬(i = r ∧ j + 1 = c - 1 ∨ i = r ∧ j + 1 = c ∨ i = r ∧ j + 1 = c + 1) by omega),
      if_neg (show ¬(i + 1 = r ∧ j + 1 = c - 1 ∨ i + 1 = r ∧ j + 1 = c ∨ i + 1 = r ∧ j + 1 = c + 1) by omega)]
    split_ifs <;> omega
  · rw [if_neg (show ¬(i = r + 1 ∧ j = c - 1 + 1 ∨ i = r + 1 ∧ j = c + 1 ∨ i = r + 1 ∧ j = c + 1 + 1) by omega),
      if_neg (show ¬(i = r ∧ j = c - 1 + 1 ∨ i = r ∧ j = c + 1 ∨ i = r ∧ j = c + 1 + 1) by omega),
      if_neg (show ¬(i + 1 = r ∧ j = c - 1 + 1 ∨ i + 1 = r ∧ j = c + 1 ∨ i + 1 = r ∧ j = c + 1 + 1) by omega),
      if_neg (show ¬(i = r + 1 ∧ j = c - 1 ∨ i = r + 1 ∧ j = c ∨ i = r + 1 ∧ j = c + 1) by omega),
      if_neg (show ¬(i + 1 = r ∧ j = c - 1 ∨ i + 1 = r ∧ j = c ∨ i + 1 = r ∧ j = c + 1) by omega),
      if_neg (show ¬(i = r + 1 ∧ j + 1 = c - 1 ∨ i = r + 1 ∧ j + 1 = c ∨ i = r + 1 ∧ j + 1 = c + 1) by omega),
      if_neg (show ¬(i = r ∧ j + 1 = c - 1 ∨ i = r ∧ j + 1 = c ∨ i = r ∧ j + 1 = c + 1) by omega),
      if_neg (show ¬(i + 1 = r ∧ j + 1 = c - 1 ∨ i + 1 = r ∧ j + 1 = c ∨ i + 1 = r ∧ j + 1 = c + 1) by omega)]
    split_ifs <;> omega
  · rw [if_neg (show ¬(i = r + 1 ∧ j = c - 1 + 1 ∨ i = r + 1 ∧ j = c + 1 ∨ i = r + 1 ∧ j = c + 1 + 1) by omega),
      if_neg (show ¬(i = r ∧ j = c - 1 + 1 ∨ i = r ∧ j = c + 1 ∨ i = r ∧ j = c + 1 + 1) by omega),
      if_neg (show ¬(i + 1 = r ∧ j = c - 1 + 1 ∨ i + 1 = r ∧ j = c + 1 ∨ i + 1 = r ∧ j = c + 1 + 1) by omega),
      if_neg (show ¬(i = r + 1 ∧ j = c - 1 ∨ i = r + 1 ∧ j = c ∨ i = r + 1 ∧ j = c + 1) by omega),
      if_neg (show ¬(i + 1 = r ∧ j = c - 1 ∨ i + 1 = r ∧ j = c ∨ i + 1 = r ∧ j = c + 1) by omega),
      if_neg (show ¬(i = r + 1 ∧ j + 1 = c - 1 ∨ i = r + 1 ∧ j + 1 = c ∨ i = r + 1 ∧ j + 1 = c + 1) by omega),
      if_pos (show i = r ∧ j + 1 = c - 1 ∨ i = r ∧ j + 1 = c ∨ i = r ∧ j + 1 = c + 1 by omega),
      if_neg (show ¬(i + 1 = r ∧ j + 1 = c - 1 ∨ i + 1 = r ∧ j + 1 = c ∨ i + 1 = r ∧ j + 1 = c + 1) by omega)]
    split_ifs <;> omega
  · rw [if_neg (show ¬(i = r + 1 ∧ j = c - 1 + 1 ∨ i = r + 1 ∧ j = c + 1 ∨ i = r + 1 ∧ j = c + 1 + 1) by omega),
      if_neg (show ¬(i = r ∧ j = c - 1 + 1 ∨ i = r ∧ j = c + 1 ∨ i = r ∧ j = c + 1 + 1) by omega),
      if_neg (show ¬(i + 1 = r ∧ j = c - 1 + 1 ∨ i + 1 = r ∧ j = c + 1 ∨ i + 1 = r ∧ j = c + 1 + 1) by omega),
      if_neg (show ¬(i = r + 1 ∧ j = c - 1 ∨ i = r + 1 ∧ j = c ∨ i = r + 1 ∧ j = c + 1) by omega),
      if_neg (show ¬(i + 1 = r ∧ j = c - 1 ∨ i + 1 = r ∧ j = c ∨ i + 1 = r ∧ j = c + 1) by omega),
      if_neg (show ¬(i = r + 1 ∧ j + 1 = c - 1 ∨ i = r + 1 ∧ j + 1 = c ∨ i = r + 1 ∧ j + 1 = c + 1) by omega),
      if_pos (show i = r ∧ j + 1 = c - 1 ∨ i = r ∧ j + 1 = c ∨ i = r ∧ j + 1 = c + 1 by omega),
      if_neg (show ¬(i + 1 = r ∧ j + 1 = c - 1 ∨ i + 1 = r ∧ j + 1 = c ∨ i + 1 = r ∧ j + 1 = c + 1) by omega)]
    split_ifs <;> omega
  · rw [if_neg (show ¬(i = r + 1 ∧ j = c - 1 + 1 ∨ i = r + 1 ∧ j = c + 1 ∨ i = r + 1 ∧ j = c + 1 + 1) by omega),
      if_pos (show i = r ∧ j = c - 1 + 1 ∨ i = r ∧ j = c + 1 ∨ i = r ∧ j = c + 1 + 1 by omega),
      if_neg (show ¬(i + 1 = r ∧ j = c - 1 + 1 ∨ i + 1 = r ∧ j = c + 1 ∨ i + 1 = r ∧ j = c + 1 + 1) by omega),
      if_neg (show ¬(i = r + 1 ∧ j = c - 1 ∨ i = r + 1 ∧ j = c ∨ i = r + 1 ∧ j = c + 1) by omega),
      if_neg (show ¬(i + 1 = r ∧ j = c - 1 ∨ i + 1 = r ∧ j = c ∨ i + 1 = r ∧ j = c + 1) by omega),
      if_neg (show ¬(i = r + 1 ∧ j + 1 = c - 1 ∨ i = r + 1 ∧ j + 1 = c ∨ i = r + 1 ∧ j + 1 = c + 1) by omega),
      if_pos (show i = r ∧ j + 1 = c - 1 ∨ i = r ∧ j + 1 = c ∨ i = r ∧ j + 1 = c + 1 by omega),
      if_neg (show ¬(i + 1 = r ∧ j + 1 = c - 1 ∨ i + 1 = r ∧ j + 1 = c ∨ i + 1 = r ∧ j + 1 = c + 1) by omega)]
    split_ifs <;> omega
  · rw [if_neg (show ¬(i = r + 1 ∧ j = c - 1 + 1 ∨ i = r + 1 ∧ j = c + 1 ∨ i = r + 1 ∧ j = c + 1 + 1) by omega),
      if_pos (show i = r ∧ j = c - 1 + 1 ∨ i = r ∧ j = c + 1 ∨ i = r ∧ j = c + 1 + 1 by omega),
      if_neg (show ¬(i + 1 = r ∧ j = c - 1 + 1 ∨ i + 1 = r ∧ j = c + 1 ∨ i + 1 = r ∧ j = c + 1 + 1) by omega),
      if_neg (show ¬(i = r + 1 ∧ j = c - 1 ∨ i = r + 1 ∧ j = c ∨ i = r + 1 ∧ j = c + 1) by omega),
      if_neg (show ¬(i + 1 = r ∧ j = c - 1 ∨ i + 1 = r ∧ j = c ∨ i + 1 = r ∧ j = c + 1) by omega),
      if_neg (show ¬(i = r + 1 ∧ j + 1 = c - 1 ∨ i = r + 1 ∧ j + 1 = c ∨ i = r + 1 ∧ j + 1 = c + 1) by omega),
      if_neg (show ¬(i = r ∧ j + 1 = c - 1 ∨ i = r ∧ j + 1 = c ∨ i = r ∧ j + 1 = c + 1) by omega),
      if_neg (show ¬(i + 1 = r ∧ j + 1 = c - 1 ∨ i + 1 = r ∧ j + 1 = c ∨ i + 1 = r ∧ j + 1 = c + 1) by omega)]
    split_ifs <;> omega
  · rw [if_neg (show ¬(i = r + 1 ∧ j = c - 1 + 1 ∨ i = r + 1 ∧ j = c + 1 ∨ i = r + 1 ∧ j = c + 1 + 1) by omega),
      if_pos (show i = r ∧ j = c - 1 + 1 ∨ i = r ∧ j = c + 1 ∨ i = r ∧ j = c + 1 + 1 by omega),
      if_neg (show ¬(i + 1 = r ∧ j = c - 1 + 1 ∨ i + 1 = r ∧ j = c + 1 ∨ i + 1 = r ∧ j = c + 1 + 1) by omega),
      if_neg (show ¬(i = r + 1 ∧ j = c - 1 ∨ i = r + 1 ∧ j = c ∨ i = r + 1 ∧ j = c + 1) by omega),
      if_neg (show ¬(i + 1 = r ∧ j = c - 1 ∨ i + 1 = r ∧ j = c ∨ i + 1 = r ∧ j = c + 1) by omega),
      if_neg (show ¬(i = r + 1 ∧ j + 1 = c - 1 ∨ i = r + 1 ∧ j + 1 = c ∨ i = r + 1 ∧ j + 1 = c + 1) by omega),
      if_neg (show ¬(i = r ∧ j + 1 = c - 1 ∨ i = r ∧ j + 1 = c ∨ i = r ∧ j + 1 = c + 1) by omega),
      if_neg (show ¬(i + 1 = r ∧ j + 1 = c - 1 ∨ i + 1 = r ∧ j + 1 = c ∨ i + 1 = r ∧ j + 1 = c + 1) by omega)]
    split_ifs <;> omega
  · rw [if_neg (show ¬(i = r + 1 ∧ j = c - 1 + 1 ∨ i = r + 1 ∧ j = c + 1 ∨ i = r + 1 ∧ j = c + 1 + 1) by omega),
      if_neg (show ¬(i = r ∧ j = c - 1 + 1 ∨ i = r ∧ j = c + 1 ∨ i = r ∧ j = c + 1 + 1) by omega),
      if_neg (show ¬(i + 1 = r ∧ j = c - 1 + 1 ∨ i + 1 = r ∧ j = c + 1 ∨ i + 1 = r ∧ j = c + 1 + 1) by omega),
      if_neg (show ¬(i = r + 1 ∧ j = c - 1 ∨ i = r + 1 ∧ j = c ∨ i = r + 1 ∧ j = c + 1) by omega),
      if_neg (show ¬(i + 1 = r ∧ j = c - 1 ∨ i + 1 = r ∧ j = c ∨ i + 1 = r ∧ j = c + 1) by omega),
      if_neg (show ¬(i = r + 1 ∧ j + 1 = c - 1 ∨ i = r + 1 ∧ j + 1 = c ∨ i = r + 1 ∧ j + 1 = c + 1) by omega),
      if_neg (show ¬(i = r ∧ j + 1 = c - 1 ∨ i = r ∧ j + 1 = c ∨ i = r ∧ j + 1 = c + 1) by omega),
      if_neg (show ¬(i + 1 = r ∧ j + 1 = c - 1 ∨ i + 1 = r ∧ j + 1 = c ∨ i + 1 = r ∧ j + 1 = c + 1) by omega)]
    split_ifs <;> omega
  · rw [if_neg (show ¬(i = r + 1 ∧ j = c - 1 + 1 ∨ i = r + 1 ∧ j = c + 1 ∨ i = r + 1 ∧ j = c + 1 + 1) by omega),
      if_neg (show ¬(i = r ∧ j = c - 1 + 1 ∨ i = r ∧ j = c + 1 ∨ i = r ∧ j = c + 1 + 1) by omega),
      if_neg (show ¬(i + 1 = r ∧ j = c - 1 + 1 ∨ i + 1 = r ∧ j = c + 1 ∨ i + 1 = r ∧ j = c + 1 + 1) by omega),
      if_neg (show ¬(i = r + 1 ∧ j = c - 1 ∨ i = r + 1 ∧ j = c ∨ i = r + 1 ∧ j = c + 1) by omega),
      if_neg (show ¬(i + 1 = r ∧ j = c - 1 ∨ i + 1 = r ∧ j = c ∨ i + 1 = r ∧ j = c + 1) by omega),
      if_pos (show i = r + 1 ∧ j + 1 = c - 1 ∨ i = r + 1 ∧ j + 1 = c ∨ i = r + 1 ∧ j + 1 = c + 1 by omega),
      if_neg (show ¬(i = r ∧ j + 1 = c - 1 ∨ i = r ∧ j + 1 = c ∨ i = r ∧ j + 1 = c + 1) by omega),
      if_neg (show ¬(i + 1 = r ∧ j + 1 = c - 1 ∨ i + 1 = r ∧ j + 1 = c ∨ i + 1 = r ∧ j + 1 = c + 1) by omega)]
    split_ifs <;> omega
  · rw [if_neg (show ¬(i = r + 1 ∧ j = c - 1 + 1 ∨ i = r + 1 ∧ j = c + 1 ∨ i = r + 1 ∧ j = c + 1 + 1) by omega),
      if_neg (show ¬(i = r ∧ j = c - 1 + 1 ∨ i = r ∧ j = c + 1 ∨ i = r ∧ j = c + 1 + 1) by omega),
      if_neg (show ¬(i + 1 = r ∧ j = c - 1 + 1 ∨ i + 1 = r ∧ j = c + 1 ∨ i + 1 = r ∧ j = c + 1 + 1) by omega),
      if_pos (show i = r + 1 ∧ j = c - 1 ∨ i = r + 1 ∧ j = c ∨ i = r + 1 ∧ j = c + 1 by omega),
      if_neg (show ¬(i + 1 = r ∧ j = c - 1 ∨ i + 1 = r ∧ j = c ∨ i + 1 = r ∧ j = c + 1) by omega),
      if_pos (show i = r + 1 ∧ j + 1 = c - 1 ∨ i = r + 1 ∧ j + 1 = c ∨ i = r + 1 ∧ j + 1 = c + 1 by omega),
      if_neg (show ¬(i = r ∧ j + 1 = c - 1 ∨ i = r ∧ j + 1 = c ∨ i = r ∧ j + 1 = c + 1) by omega),
      if_neg (show ¬(i + 1 = r ∧ j + 1 = c - 1 ∨ i + 1 = r ∧ j + 1 = c ∨ i + 1 = r ∧ j + 1 = c + 1) by omega)]
    split_ifs <;> omega
  · rw [if_pos (show i = r + 1 ∧ j = c - 1 + 1 ∨ i = r + 1 ∧ j = c + 1 ∨ i = r + 1 ∧ j = c + 1 + 1 by omega),
      if_neg (show ¬(i = r ∧ j = c - 1 + 1 ∨ i = r ∧ j = c + 1 ∨ i = r ∧ j = c + 1 + 1) by omega),
      if_neg (show ¬(i + 1 = r ∧ j = c - 1 + 1 ∨ i + 1 = r ∧ j = c + 1 ∨ i + 1 = r ∧ j = c + 1 + 1) by omega),
      if_pos (show i = r + 1 ∧ j = c - 1 ∨ i = r + 1 ∧ j = c ∨ i = r + 1 ∧ j = c + 1 by omega),
      if_neg (show ¬(i + 1 = r ∧ j = c - 1 ∨ i + 1 = r ∧ j = c ∨ i + 1 = r ∧ j = c + 1) by omega),
      if_pos (show i = r + 1 ∧ j + 1 = c - 1 ∨ i = r + 1 ∧ j + 1 = c ∨ i = r + 1 ∧ j + 1 = c + 1 by omega),
      if_neg (show ¬(i = r ∧ j + 1 = c - 1 ∨ i = r ∧ j + 1 = c ∨ i = r ∧ j + 1 = c + 1) by omega),
      if_neg (show ¬(i + 1 = r ∧ j + 1 = c - 1 ∨ i + 1 = r ∧ j + 1 = c ∨ i + 1 = r ∧ j + 1 = c + 1) by omega)]
    split_ifs <;> omega
  · rw [if_pos (show i = r + 1 ∧ j = c - 1 + 1 ∨ i = r + 1 ∧ j = c + 1 ∨ i = r + 1 ∧ j = c + 1 + 1 by omega),
      if_neg (show ¬(i = r ∧ j = c - 1 + 1 ∨ i = r ∧ j = c + 1 ∨ i = r ∧ j = c + 1 + 1) by omega),
      if_neg (show ¬(i + 1 = r ∧ j = c - 1 + 1 ∨ i + 1 = r ∧ j = c + 1 ∨ i + 1 = r ∧ j = c + 1 + 1) by omega),
      if_pos (show i = r + 1 ∧ j = c - 1 ∨ i = r + 1 ∧ j = c ∨ i = r + 1 ∧ j = c + 1 by omega),
      if_neg (show ¬(i + 1 = r ∧ j = c - 1 ∨ i + 1 = r ∧ j = c ∨ i + 1 = r ∧ j = c + 1) by omega),
      if_neg (show ¬(i = r + 1 ∧ j + 1 = c - 1 ∨ i = r + 1 ∧ j + 1 = c ∨ i = r + 1 ∧ j + 1 = c + 1) by omega),
      if_neg (show ¬(i = r ∧ j + 1 = c - 1 ∨ i = r ∧ j + 1 = c ∨ i = r ∧ j + 1 = c + 1) by omega),
      if_neg (show ¬(i + 1 = r ∧ j + 1 = c - 1 ∨ i + 1 = r ∧ j + 1 = c ∨ i + 1 = r ∧ j + 1 = c + 1) by omega)]
    split_ifs <;> omega
  · rw [if_pos (show i = r + 1 ∧ j = c - 1 + 1 ∨ i = r + 1 ∧ j = c + 1 ∨ i = r + 1 ∧ j = c + 1 + 1 by omega),
      if_neg (show ¬(i = r ∧ j = c - 1 + 1 ∨ i = r ∧ j = c + 1 ∨ i = r ∧ j = c + 1 + 1) by omega),
      if_neg (show ¬(i + 1 = r ∧ j = c - 1 + 1 ∨ i + 1 = r ∧ j = c + 1 ∨ i + 1 = r ∧ j = c + 1 + 1) by omega),
      if_neg (show ¬(i = r + 1 ∧ j = c - 1 ∨ i = r + 1 ∧ j = c ∨ i = r + 1 ∧ j = c + 1) by omega),
      if_neg (show ¬(i + 1 = r ∧ j = c - 1 ∨ i + 1 = r ∧ j = c ∨ i + 1 = r ∧ j = c + 1) by omega),
      if_neg (show ¬(i = r + 1 ∧ j + 1 = c - 1 ∨ i = r + 1 ∧ j + 1 = c ∨ i = r + 1 ∧ j + 1 = c + 1) by omega),
      if_neg (show ¬(i = r ∧ j + 1 = c - 1 ∨ i = r ∧ j + 1 = c ∨ i = r ∧ j + 1 = c + 1) by omega),
      if_neg (show ¬(i + 1 = r ∧ j + 1 = c - 1 ∨ i + 1 = r ∧ j + 1 = c ∨ i + 1 = r ∧ j + 1 = c + 1) by omega)]
    split_ifs <;> omega
  · rw [if_neg (show ¬(i = r + 1 ∧ j = c - 1 + 1 ∨ i = r + 1 ∧ j = c + 1 ∨ i = r + 1 ∧ j = c + 1 + 1) by omega),
      if_neg (show ¬(i = r ∧ j = c - 1 + 1 ∨ i = r ∧ j = c + 1 ∨ i = r ∧ j = c + 1 + 1) by omega),
      if_neg (show ¬(i + 1 = r ∧ j = c - 1 + 1 ∨ i + 1 = r ∧ j = c + 1 ∨ i + 1 = r ∧ j = c + 1 + 1) by omega),
      if_neg (show ¬(i = r + 1 ∧ j = c - 1 ∨ i = r + 1 ∧ j = c ∨ i = r + 1 ∧ j = c + 1) by omega),
      if_neg (show ¬(i + 1 = r ∧ j = c - 1 ∨ i + 1 = r ∧ j = c ∨ i + 1 = r ∧ j = c + 1) by omega),
      if_neg (show ¬(i = r + 1 ∧ j + 1 = c - 1 ∨ i = r + 1 ∧ j + 1 = c ∨ i = r + 1 ∧ j + 1 = c + 1) by omega),
      if_neg (show ¬(i = r ∧ j + 1 = c - 1 ∨ i = r ∧ j + 1 = c ∨ i = r ∧ j + 1 = c + 1) by omega),
      if_neg (show ¬(i + 1 = r ∧ j + 1 = c - 1 ∨ i + 1 = r ∧ j + 1 = c ∨ i + 1 = r ∧ j + 1 = c + 1) by omega)]
    split_ifs <;> omega
  · rw [if_neg (show ¬(i = r + 1 ∧ j = c - 1 + 1 ∨ i = r + 1 ∧ j = c + 1 ∨ i = r + 1 ∧ j = c + 1 + 1) by omega),
      if_neg (show ¬(i = r ∧ j = c - 1 + 1 ∨ i = r ∧ j = c + 1 ∨ i = r ∧ j = c + 1 + 1) by omega),
      if_neg (show ¬(i + 1 = r ∧ j = c - 1 + 1 ∨ i + 1 = r ∧ j = c + 1 ∨ i + 1 = r ∧ j = c + 1 + 1) by omega),
      if_neg (show ¬(i = r + 1 ∧ j = c - 1 ∨ i = r + 1 ∧ j = c ∨ i = r + 1 ∧ j = c + 1) by omega),
      if_neg (show ¬(i + 1 = r ∧ j = c - 1 ∨ i + 1 = r ∧ j = c ∨ i + 1 = r ∧ j = c + 1) by omega),
      if_neg (show ¬(i = r + 1 ∧ j + 1 = c - 1 ∨ i = r + 1 ∧ j + 1 = c ∨ i = r + 1 ∧ j + 1 = c + 1) by omega),
      if_neg (show ¬(i = r ∧ j + 1 = c - 1 ∨ i = r ∧ j + 1 = c ∨ i = r ∧ j + 1 = c + 1) by omega),
      if_neg (show ¬(i + 1 = r ∧ j + 1 = c - 1 ∨ i + 1 = r ∧ j + 1 = c ∨ i + 1 = r ∧ j + 1 = c + 1) by omega)]
    split_ifs <;> omega
  · rw [if_neg (show ¬(i = r + 1 ∧ j = c - 1 + 1 ∨ i = r + 1 ∧ j = c + 1 ∨ i = r + 1 ∧ j = c + 1 + 1) by omega),
      if_neg (show ¬(i = r ∧ j = c - 1 + 1 ∨ i = r ∧ j = c + 1 ∨ i = r ∧ j = c + 1 + 1) by omega),
      if_neg (show ¬(i + 1 = r ∧ j = c - 1 + 1 ∨ i + 1 = r ∧ j = c + 1 ∨ i + 1 = r ∧ j = c + 1 + 1) by omega),
      if_neg (show ¬(i = r + 1 ∧ j = c - 1 ∨ i = r + 1 ∧ j = c ∨ i = r + 1 ∧ j = c + 1) by omega),
      if_neg (show ¬(i + 1 = r ∧ j = c - 1 ∨ i + 1 = r ∧ j = c ∨ i + 1 = r ∧ j = c + 1) by omega),
      if_neg (show ¬(i = r + 1 ∧ j + 1 = c - 1 ∨ i = r + 1 ∧ j + 1 = c ∨ i = r + 1 ∧ j + 1 = c + 1) by omega),
      if_neg (show ¬(i = r ∧ j + 1 = c - 1 ∨ i = r ∧ j + 1 = c ∨ i = r ∧ j + 1 = c + 1) by omega),
      if_neg (show ¬(i + 1 = r ∧ j + 1 = c - 1 ∨ i + 1 = r ∧ j + 1 = c ∨ i + 1 = r ∧ j + 1 = c + 1) by omega)]
    split_ifs <;> omega
  · rw [if_neg (show ¬(i = r + 1 ∧ j = c - 1 + 1 ∨ i = r + 1 ∧ j = c + 1 ∨ i = r + 1 ∧ j = c + 1 + 1) by omega),
      if_neg (show ¬(i = r ∧ j = c - 1 + 1 ∨ i = r ∧ j = c + 1 ∨ i = r ∧ j = c + 1 + 1) by omega),
      if_neg (show ¬(i + 1 = r ∧ j = c - 1 + 1 ∨ i + 1 = r ∧ j = c + 1 ∨ i + 1 = r ∧ j = c + 1 + 1) by omega),
      if_neg (show ¬(i = r + 1 ∧ j = c - 1 ∨ i = r + 1 ∧ j = c ∨ i = r + 1 ∧ j = c + 1) by omega),
      if_neg (show ¬(i + 1 = r ∧ j = c - 1 ∨ i + 1 = r ∧ j = c ∨ i + 1 = r ∧ j = c + 1) by omega),
      if_neg (show ¬(i = r + 1 ∧ j + 1 = c - 1 ∨ i = r + 1 ∧ j + 1 = c ∨ i = r + 1 ∧ j + 1 = c + 1) by omega),
      if_neg (show ¬(i = r ∧ j + 1 = c - 1 ∨ i = r ∧ j + 1 = c ∨ i = r ∧ j + 1 = c + 1) by omega),
      if_neg (show ¬(i + 1 = r ∧ j + 1 = c - 1 ∨ i + 1 = r ∧ j + 1 = c ∨ i + 1 = r ∧ j + 1 = c + 1) by omega)]
    split_ifs <;> omega
  · rw [if_neg (show ¬(i = r + 1 ∧ j = c - 1 + 1 ∨ i = r + 1 ∧ j = c + 1 ∨ i = r + 1 ∧ j = c + 1 + 1) by omega),
      if_neg (show ¬(i = r ∧ j = c - 1 + 1 ∨ i = r ∧ j = c + 1 ∨ i = r ∧ j = c + 1 + 1) by omega),
      if_neg (show ¬(i + 1 = r ∧ j = c - 1 + 1 ∨ i + 1 = r ∧ j = c + 1 ∨ i + 1 = r ∧ j = c + 1 + 1) by omega),
      if_neg (show ¬(i = r + 1 ∧ j = c - 1 ∨ i = r + 1 ∧ j = c ∨ i = r + 1 ∧ j = c + 1) by omega),
      if_neg (show ¬(i + 1 = r ∧ j = c - 1 ∨ i + 1 = r ∧ j = c ∨ i + 1 = r ∧ j = c + 1) by omega),
      if_neg (show ¬(i = r + 1 ∧ j + 1 = c - 1 ∨ i = r + 1 ∧ j + 1 = c ∨ i = r + 1 ∧ j + 1 = c + 1) by omega),
      if_neg (show ¬(i = r ∧ j + 1 = c - 1 ∨ i = r ∧ j + 1 = c ∨ i = r ∧ j + 1 = c + 1) by omega),
      if_neg (show ¬(i + 1 = r ∧ j + 1 = c - 1 ∨ i + 1 = r ∧ j + 1 = c ∨ i + 1 = r ∧ j + 1 = c + 1) by omega)]
    split_ifs <;> omega
  · rw [if_neg (show ¬(i = r + 1 ∧ j = c - 1 + 1 ∨ i = r + 1 ∧ j = c + 1 ∨ i = r + 1 ∧ j = c + 1 + 1) by omega),
      if_neg (show ¬(i = r ∧ j = c - 1 + 1 ∨ i = r ∧ j = c + 1 ∨ i = r ∧ j = c + 1 + 1) by omega),
      if_neg (show ¬(i + 1 = r ∧ j = c - 1 + 1 ∨ i + 1 = r ∧ j = c + 1 ∨ i + 1 = r ∧ j = c + 1 + 1) by omega),
      if_neg (show ¬(i = r + 1 ∧ j = c - 1 ∨ i = r + 1 ∧ j = c ∨ i = r + 1 ∧ j = c + 1) by omega),
      if_neg (show ¬(i + 1 = r ∧ j = c - 1 ∨ i + 1 = r ∧ j = c ∨ i + 1 = r ∧ j = c + 1) by omega),
      if_neg (show ¬(i = r + 1 ∧ j + 1 = c - 1 ∨ i = r + 1 ∧ j + 1 = c ∨ i = r + 1 ∧ j + 1 = c + 1) by omega),
      if_neg (show ¬(i = r ∧ j + 1 = c - 1 ∨ i = r ∧ j + 1 = c ∨ i = r ∧ j + 1 = c + 1) by omega),
      if_neg (show ¬(i + 1 = r ∧ j + 1 = c - 1 ∨ i + 1 = r ∧ j + 1 = c ∨ i + 1 = r ∧ j + 1 = c + 1) by omega)]
    split_ifs <;> omega
  · rw [if_neg (show ¬(i = r + 1 ∧ j = c - 1 + 1 ∨ i = r + 1 ∧ j = c + 1 ∨ i = r + 1 ∧ j = c + 1 + 1) by omega),
      if_neg (show ¬(i = r ∧ j = c - 1 + 1 ∨ i = r ∧ j = c + 1 ∨ i = r ∧ j = c + 1 + 1) by omega),
      if_neg (show ¬(i + 1 = r ∧ j = c - 1 + 1 ∨ i + 1 = r ∧ j = c + 1 ∨ i + 1 = r ∧ j = c + 1 + 1) by omega),
      if_neg (show ¬(i = r + 1 ∧ j = c - 1 ∨ i = r + 1 ∧ j = c ∨ i = r + 1 ∧ j = c + 1) by omega),
      if_neg (show ¬(i + 1 = r ∧ j = c - 1 ∨ i + 1 = r ∧ j = c ∨ i + 1 = r ∧ j = c + 1) by omega),
      if_neg (show ¬(i = r + 1 ∧ j + 1 = c - 1 ∨ i = r + 1 ∧ j + 1 = c ∨ i = r + 1 ∧ j + 1 = c + 1) by omega),
      if_neg (show ¬(i = r ∧ j + 1 = c - 1 ∨ i = r ∧ j + 1 = c ∨ i = r ∧ j + 1 = c + 1) by omega),
      if_neg (show ¬(i + 1 = r ∧ j + 1 = c - 1 ∨ i + 1 = r ∧ j + 1 = c ∨ i + 1 = r ∧ j + 1 = c + 1) by omega)]
    split_ifs <;> omega

theorem threeCells_getElem? (n p1 p2 p3 k : Nat) (hk : k < n * n) :
    (threeCells n p1 p2 p3)[k]? =
      some (if k = p1 ∨ k = p2 ∨ k = p3 then Cell.Alive else Cell.Dead) := by
  rw [threeCells, List.getElem?_map, List.getElem?_range hk]
  rfl

theorem blinkerH_cells_length (n r c : Nat) : (blinkerH n r c).cells.length = n * n := by
  simp [blinkerH, threeCells]

set_option maxHeartbeats 1600000 in
theorem tick_blinkerH (n r c : Nat) (hn : 5 ≤ n) (hr2 : 2 ≤ r) (hr3 : r + 3 ≤ n)
    (hc2 : 2 ≤ c) (hc3 : c + 3 ≤ n) : tick (blinkerH n r c) = blinkerV n r c := by
  have hnpos : 0 < n := by omega
  have hcells : (tick (blinkerH n r c)).cells = (blinkerV n r c).cells := by
    apply List.ext_getElem?
    intro k
    rw [tick_cells_getElem?]
    by_cases hk : k < n * n
    · obtain ⟨i, j, hi, hj, rfl⟩ : ∃ i j, i < n ∧ j < n ∧ k = i * n + j := by
        refine ⟨k / n, k % n, ?_, Nat.mod_lt _ hnpos, ?_⟩
        · exact Nat.div_lt_of_lt_mul hk
        · rw [Nat.mul_comm]
          exact (Nat.div_add_mod k n).symm
      have hk2 : i * n + j < (blinkerH n r c).cells.length := by
        rw [blinkerH_cells_length]; exact hk
      rw [if_pos ⟨(show i * n + j < (blinkerH n r c).height * (blinkerH n r c).width from hk), hk2⟩]
      have hdiv : (i * n + j) / n = i := by
        rw [Nat.mul_comm, Nat.mul_add_div hnpos, Nat.div_eq_of_lt hj, Nat.add_zero]
      have hmod : (i * n + j) % n = j := by
        rw [Nat.mul_comm, Nat.mul_add_mod]
        exact Nat.mod_eq_of_lt hj
      simp only [next_at]
      rw [show (blinkerH n r c).width = n from rfl, hdiv, hmod]
      rw [show (blinkerH n r c).cells.getD (i * n + j) Cell.Dead
            = (threeCells n (r * n + (c - 1)) (r * n + c) (r * n + (c + 1))).getD (i * n + j) Cell.Dead from rfl]
      rw [threeCells_getD n _ _ _ _ hk]
      rw [lnc_blinkerH n r c i j hn hr2 hr3 hc2 hc3 hi hj]
      rw [show (blinkerV n r c).cells = threeCells n ((r - 1) * n + c) (r * n + c) ((r + 1) * n + c) from rfl]
      rw [threeCells_getElem? n _ _ _ _ hk]
      have FH1 := fun a => flat_eq_iff n a j r (c - 1) hj (by omega)
      have FH2 := fun a => flat_eq_iff n a j r c hj (by omega)
      have FH3 := fun a => flat_eq_iff n a j r (c + 1) hj (by omega)
      have FV1 := fun a => flat_eq_iff n a j (r - 1) c hj (by omega)
      have FV3 := fun a => flat_eq_iff n a j (r + 1) c hj (by omega)
      simp only [FH1, FH2, FH3, FV1, FV3, hBlinkCount]
      rcases (show i + 1 = r ∨ i = r ∨ i = r + 1 ∨ (i + 1 ≠ r ∧ i ≠ r ∧ i ≠ r + 1) from by omega) with hzi | hzi | hzi | hzi <;>
        rcases (show j + 2 = c ∨ j + 1 = c ∨ j = c ∨ j = c + 1 ∨ j = c + 2 ∨ (j + 2 ≠ c ∧ j + 1 ≠ c ∧ j ≠ c ∧ j ≠ c + 1 ∧ j ≠ c + 2) from by omega) with hzj | hzj | hzj | hzj | hzj | hzj
      · rw [if_neg (show ¬(i = r ∧ j = c - 1 ∨ i = r ∧ j = c ∨ i = r ∧ j = c + 1) by omega),
          if_pos (show i + 1 = r ∨ i = r + 1 by omega),
          if_neg (show ¬(j = c) by omega),
          if_neg (show ¬(j + 1 = c ∨ j = c + 1) by omega),
          if_pos (show j + 2 = c ∨ j = c + 2 by omega),
          if_neg (show ¬(i = r - 1 ∧ j = c ∨ i = r ∧ j = c ∨ i = r + 1 ∧ j = c) by omega)]
        rfl
      · rw [if_neg (show ¬(i = r ∧ j = c - 1 ∨ i = r ∧ j = c ∨ i = r ∧ j = c + 1) by omega),
          if_pos (show i + 1 = r ∨ i = r + 1 by omega),
          if_neg (show ¬(j = c) by omega),
          if_pos (show j + 1 = c ∨ j = c + 1 by omega),
          if_neg (show ¬(i = r - 1 ∧ j = c ∨ i = r ∧ j = c ∨ i = r + 1 ∧ j = c) by omega)]
        rfl
      · rw [if_neg (show ¬(i = r ∧ j = c - 1 ∨ i = r ∧ j = c ∨ i = r ∧ j = c + 1) by omega),
          if_pos (show i + 1 = r ∨ i = r + 1 by omega),
          if_pos (show j = c by omega),
          if_pos (show i = r - 1 ∧ j = c ∨ i = r ∧ j = c ∨ i = r + 1 ∧ j = c by omega)]
        rfl
      · rw [if_neg (show ¬(i = r ∧ j = c - 1 ∨ i = r ∧ j = c ∨ i = r ∧ j = c + 1) by omega),
          if_pos (show i + 1 = r ∨ i = r + 1 by omega),
          if_neg (show ¬(j = c) by omega),
          if_pos (show j + 1 = c ∨ j = c + 1 by omega),
          if_neg (show ¬(i = r - 1 ∧ j = c ∨ i = r ∧ j = c ∨ i = r + 1 ∧ j = c) by omega)]
        rfl
      · rw [if_neg (show ¬(i = r ∧ j = c - 1 ∨ i = r ∧ j = c ∨ i = r ∧ j = c + 1) by omega),
          if_pos (show i + 1 = r ∨ i = r + 1 by omega),
          if_neg (show ¬(j = c) by omega),
          if_neg (show ¬(j + 1 = c ∨ j = c + 1) by omega),
          if_pos (show j + 2 = c ∨ j = c + 2 by omega),
          if_neg (show ¬(i = r - 1 ∧ j = c ∨ i = r ∧ j = c ∨ i = r + 1 ∧ j = c) by omega)]
        rfl
      · rw [if_neg (show ¬(i = r ∧ j = c - 1 ∨ i = r ∧ j = c ∨ i = r ∧ j = c + 1) by omega),
          if_pos (show i + 1 = r ∨ i = r + 1 by omega),
          if_neg (show ¬(j = c) by omega),
          if_neg (show ¬(j + 1 = c ∨ j = c + 1) by omega),
          if_neg (show ¬(j + 2 = c ∨ j = c + 2) by omega),
          if_neg (show ¬(i = r - 1 ∧ j = c ∨ i = r ∧ j = c ∨ i = r + 1 ∧ j = c) by omega)]
        rfl
      · rw [if_neg (show ¬(i = r ∧ j = c - 1 ∨ i = r ∧ j = c ∨ i = r ∧ j = c + 1) by omega),
          if_neg (show ¬(i + 1 = r ∨ i = r + 1) by omega),
          if_pos (show i = r by omega),
          if_neg (show ¬(j = c) by omega),
          if_pos (show j + 2 = c ∨ j + 1 = c ∨ j = c + 1 ∨ j = c + 2 by omega),
          if_neg (show ¬(i = r - 1 ∧ j = c ∨ i = r ∧ j = c ∨ i = r + 1 ∧ j = c) by omega)]
        rfl
      · rw [if_pos (show i = r ∧ j = c - 1 ∨ i = r ∧ j = c ∨ i = r ∧ j = c + 1 by omega),
          if_neg (show ¬(i + 1 = r ∨ i = r + 1) by omega),
          if_pos (show i = r by omega),
          if_neg (show ¬(j = c) by omega),
          if_pos (show j + 2 = c ∨ j + 1 = c ∨ j = c + 1 ∨ j = c + 2 by omega),
          if_neg (show ¬(i = r - 1 ∧ j = c ∨ i = r ∧ j = c ∨ i = r + 1 ∧ j = c) by omega)]
        rfl
      · rw [if_pos (show i = r ∧ j = c - 1 ∨ i = r ∧ j = c ∨ i = r ∧ j = c + 1 by omega),
          if_neg (show ¬(i + 1 = r ∨ i = r + 1) by omega),
          if_pos (show i = r by omega),
          if_pos (show j = c by omega),
          if_pos (show i = r - 1 ∧ j = c ∨ i = r ∧ j = c ∨ i = r + 1 ∧ j = c by omega)]
        rfl
      · rw [if_pos (show i = r ∧ j = c - 1 ∨ i = r ∧ j = c ∨ i = r ∧ j = c + 1 by omega),
          if_neg (show ¬(i + 1 = r ∨ i = r + 1) by omega),
          if_pos (show i = r by omega),
          if_neg (show ¬(j = c) by omega),
          if_pos (show j + 2 = c ∨ j + 1 = c ∨ j = c + 1 ∨ j = c + 2 by omega),
          if_neg (show ¬(i = r - 1 ∧ j = c ∨ i = r ∧ j = c ∨ i = r + 1 ∧ j = c) by omega)]
        rfl
      · rw [if_neg (show ¬(i = r ∧ j = c - 1 ∨ i = r ∧ j = c ∨ i = r ∧ j = c + 1) by omega),
          if_neg (show ¬(i + 1 = r ∨ i = r + 1) by omega),
          if_pos (show i = r by omega),
          if_neg (show ¬(j = c) by omega),
          if_pos (show j + 2 = c ∨ j + 1 = c ∨ j = c + 1 ∨ j = c + 2 by omega),
          if_neg (show ¬(i = r - 1 ∧ j = c ∨ i = r ∧ j = c ∨ i = r + 1 ∧ j = c) by omega)]
        rfl
      · rw [if_neg (show ¬(i = r ∧ j = c - 1 ∨ i = r ∧ j = c ∨ i = r ∧ j = c + 1) by omega),
          if_neg (show ¬(i + 1 = r ∨ i = r + 1) by omega),
          if_pos (show i = r by omega),
          if_neg (show ¬(j = c) by omega),
          if_neg (show ¬(j + 2 = c ∨ j + 1 = c ∨ j = c + 1 ∨ j = c + 2) by omega),
          if_neg (show ¬(i = r - 1 ∧ j = c ∨ i = r ∧ j = c ∨ i = r + 1 ∧ j = c) by omega)]
        rfl
      · rw [if_neg (show ¬(i = r ∧ j = c - 1 ∨ i = r ∧ j = c ∨ i = r ∧ j = c + 1) by omega),
          if_pos (show i + 1 = r ∨ i = r + 1 by omega),
          if_neg (show ¬(j = c) by omega),
          if_neg (show ¬(j + 1 = c ∨ j = c + 1) by omega),
          if_pos (show j + 2 = c ∨ j = c + 2 by omega),
          if_neg (show ¬(i = r - 1 ∧ j = c ∨ i = r ∧ j = c ∨ i = r + 1 ∧ j = c) by omega)]
        rfl
      · rw [if_neg (show ¬(i = r ∧ j = c - 1 ∨ i = r ∧ j = c ∨ i = r ∧ j = c + 1) by omega),
          if_pos (show i + 1 = r ∨ i = r + 1 by omega),
          if_neg (show ¬(j = c) by omega),
          if_pos (show j + 1 = c ∨ j = c + 1 by omega),
          if_neg (show ¬(i = r - 1 ∧ j = c ∨ i = r ∧ j = c ∨ i = r + 1 ∧ j = c) by omega)]
        rfl
      · rw [if_neg (show ¬(i = r ∧ j = c - 1 ∨ i = r ∧ j = c ∨ i = r ∧ j = c + 1) by omega),
          if_pos (show i + 1 = r ∨ i = r + 1 by omega),
          if_pos (show j = c by omega),
          if_pos (show i = r - 1 ∧ j = c ∨ i = r ∧ j = c ∨ i = r + 1 ∧ j = c by omega)]
        rfl
      · rw [if_neg (show ¬(i = r ∧ j = c - 1 ∨ i = r ∧ j = c ∨ i = r ∧ j = c + 1) by omega),
          if_pos (show i + 1 = r ∨ i = r + 1 by omega),
          if_neg (show ¬(j = c) by omega),
          if_pos (show j + 1 = c ∨ j = c + 1 by omega),
          if_neg (show ¬(i = r - 1 ∧ j = c ∨ i = r ∧ j = c ∨ i = r + 1 ∧ j = c) by omega)]
        rfl
      · rw [if_neg (show ¬(i = r ∧ j = c - 1 ∨ i = r ∧ j = c ∨ i = r ∧ j = c + 1) by omega),
          if_pos (show i + 1 = r ∨ i = r + 1 by omega),
          if_neg (show ¬(j = c) by omega),
          if_neg (show ¬(j + 1 = c ∨ j = c + 1) by omega),
          if_pos (show j + 2 = c ∨ j = c + 2 by omega),
          if_neg (show ¬(i = r - 1 ∧ j = c ∨ i = r ∧ j = c ∨ i = r + 1 ∧ j = c) by omega)]
        rfl
      · rw [if_neg (show ¬(i = r ∧ j = c - 1 ∨ i = r ∧ j = c ∨ i = r ∧ j = c + 1) by omega),
          if_pos (show i + 1 = r ∨ i = r + 1 by omega),
          if_neg (show ¬(j = c) by omega),
          if_neg (show ¬(j + 1 = c ∨ j = c + 1) by omega),
          if_neg (show ¬(j + 2 = c ∨ j = c + 2) by omega),
          if_neg (show ¬(i = r - 1 ∧ j = c ∨ i = r ∧ j = c ∨ i = r + 1 ∧ j = c) by omega)]
        rfl
      · rw [if_neg (show ¬(i = r ∧ j = c - 1 ∨ i = r ∧ j = c ∨ i = r ∧ j = c + 1) by omega),
          if_neg (show ¬(i + 1 = r ∨ i = r + 1) by omega),
          if_neg (show ¬(i = r) by omega),
          if_neg (show ¬(i = r - 1 ∧ j = c ∨ i = r ∧ j = c ∨ i = r + 1 ∧ j = c) by omega)]
        rfl
      · rw [if_neg (show ¬(i = r ∧ j = c - 1 ∨ i = r ∧ j = c ∨ i = r ∧ j = c + 1) by omega),
          if_neg (show ¬(i + 1 = r ∨ i = r + 1) by omega),
          if_neg (show ¬(i = r) by omega),
          if_neg (show ¬(i = r - 1 ∧ j = c ∨ i = r ∧ j = c ∨ i = r + 1 ∧ j = c) by omega)]
        rfl
      · rw [if_neg (show ¬(i = r ∧ j = c - 1 ∨ i = r ∧ j = c ∨ i = r ∧ j = c + 1) by omega),
          if_neg (show ¬(i + 1 = r ∨ i = r + 1) by omega),
          if_neg (show ¬(i = r) by omega),
          if_neg (show ¬(i = r - 1 ∧ j = c ∨ i = r ∧ j = c ∨ i = r + 1 ∧ j = c) by omega)]
        rfl
      · rw [if_neg (show ¬(i = r ∧ j = c - 1 ∨ i = r ∧ j = c ∨ i = r ∧ j = c + 1) by omega),
          if_neg (show ¬(i + 1 = r ∨ i = r + 1) by omega),
          if_neg (show ¬(i = r) by omega),
          if_neg (show ¬(i = r - 1 ∧ j = c ∨ i = r ∧ j = c ∨ i = r + 1 ∧ j = c) by omega)]
        rfl
      · rw [if_neg (show ¬(i = r ∧ j = c - 1 ∨ i = r ∧ j = c ∨ i = r ∧ j = c + 1) by omega),
          if_neg (show ¬(i + 1 = r ∨ i = r + 1) by omega),
          if_neg (show ¬(i = r) by omega),
          if_neg (show ¬(i = r - 1 ∧ j = c ∨ i = r ∧ j = c ∨ i = r + 1 ∧ j = c) by omega)]
        rfl
      · rw [if_neg (show ¬(i = r ∧ j = c - 1 ∨ i = r ∧ j = c ∨ i = r ∧ j = c + 1) by omega),
          if_neg (show ¬(i + 1 = r ∨ i = r + 1) by omega),
          if_neg (show ¬(i = r) by omega),
          if_neg (show ¬(i = r - 1 ∧ j = c ∨ i = r ∧ j = c ∨ i = r + 1 ∧ j = c) by omega)]
        rfl
    · rw [if_neg (fun hcon => hk hcon.1)]
      rw [show (blinkerH n r c).cells = threeCells n (r * n + (c - 1)) (r * n + c) (r * n + (c + 1)) from rfl]
      rw [show (blinkerV n r c).cells = threeCells n ((r - 1) * n + c) (r * n + c) ((r + 1) * n + c) from rfl]
      rw [List.getElem?_eq_none (by simp [threeCells]; omega),
        List.getElem?_eq_none (by simp [threeCells]; omega)]
  have h1 : tick (blinkerH n r c) = Universe.mk n n (tick (blinkerH n r c)).cells := rfl
  rw [h1, hcells]
  rfl


set_option maxHeartbeats 1600000 in
theorem lnc_blinkerV (n r c i j : Nat) (hn : 5 ≤ n) (hr2 : 2 ≤ r) (hr3 : r + 3 ≤ n)
    (hc2 : 2 ≤ c) (hc3 : c + 3 ≤ n) (hi : i < n) (hj : j < n) :
    live_neighbour_count (blinkerV n r c) i j = hBlinkCount c r j i := by
  have hh : (blinkerV n r c).height - 1 ≠ 0 := by show n - 1 ≠ 0; omega
  have hw : (blinkerV n r c).width - 1 ≠ 0 := by show n - 1 ≠ 0; omega
  rw [lnc_unfold _ _ _ hh hw]
  have H := fun dr dc =>
    nbTerm_threeCells n ((r - 1) * n + c) (r * n + c) ((r + 1) * n + c) i j dr dc
      (by omega : 0 < n)
  simp only [blinkerV] at *
  simp only [H]
  have hB1 : (j + (n - 1)) % n < n := Nat.mod_lt _ (by omega)
  have hB3 : (j + 1) % n < n := Nat.mod_lt _ (by omega)
  have hjn : j % n = j := Nat.mod_eq_of_lt hj
  have hin : i % n = i := Nat.mod_eq_of_lt hi
  simp only [Nat.add_zero, hjn, hin]
  have F11 := fun a => flat_eq_iff n a ((j + (n - 1)) % n) (r - 1) c hB1 (by omega)
  have F12 := fun a => flat_eq_iff n a ((j + (n - 1)) % n) r c hB1 (by omega)
  have F13 := fun a => flat_eq_iff n a ((j + (n - 1)) % n) (r + 1) c hB1 (by omega)
  have F21 := fun a => flat_eq_iff n a j (r - 1) c hj (by omega)
  have F22 := fun a => flat_eq_iff n a j r c hj (by omega)
  have F23 := fun a => flat_eq_iff n a j (r + 1) c hj (by omega)
  have F31 := fun a => flat_eq_iff n a ((j + 1) % n) (r - 1) c hB3 (by omega)
  have F32 := fun a => flat_eq_iff n a ((j + 1) % n) r c hB3 (by omega)
  have F33 := fun a => flat_eq_iff n a ((j + 1) % n) (r + 1) c hB3 (by omega)
  simp only [F11, F12, F13, F21, F22, F23, F31, F32, F33]
  have Md1 : (i + (n - 1)) % n = r - 1 ↔ i = r - 1 + 1 := mod_down_eq n i (r - 1) hi (by omega)
  have Md2 : (i + (n - 1)) % n = r ↔ i = r + 1 := mod_down_eq n i r hi (by omega)
  have Md3 : (i + (n - 1)) % n = r + 1 ↔ i = r + 1 + 1 := mod_down_eq n i (r + 1) hi (by omega)
  have Mu1 : (i + 1) % n = r - 1 ↔ i + 1 = r - 1 := mod_up_eq n i (r - 1) hi (by omega) (by omega)
  have Mu2 : (i + 1) % n = r ↔ i + 1 = r := mod_up_eq n i r hi (by omega) (by omega)
  have Mu3 : (i + 1) % n = r + 1 ↔ i + 1 = r + 1 := mod_up_eq n i (r + 1) hi (by omega) (by omega)
  have MDj : (j + (n - 1)) % n = c ↔ j = c + 1 := mod_down_eq n j c hj (by omega)
  have MUj : (j + 1) % n = c ↔ j + 1 = c := mod_up_eq n j c hj (by omega) (by omega)
  simp only [Md1, Md2, Md3, Mu1, Mu2, Mu3, MDj, MUj, hBlinkCount]
  rcases (show i + 2 = r ∨ i + 1 = r ∨ i = r ∨ i = r + 1 ∨ i = r + 2 ∨ (i + 2 ≠ r ∧ i + 1 ≠ r ∧ i ≠ r ∧ i ≠ r + 1 ∧ i ≠ r + 2) from by omega) with hzi | hzi | hzi | hzi | hzi | hzi <;>
    rcases (show j + 1 = c ∨ j = c ∨ j = c + 1 ∨ (j + 1 ≠ c ∧ j ≠ c ∧ j ≠ c + 1) from by omega) with hzj | hzj | hzj | hzj
  · rw [if_neg (show ¬(i = r - 1 + 1 ∧ j = c + 1 ∨ i = r + 1 ∧ j = c + 1 ∨ i = r + 1 + 1 ∧ j = c + 1) by omega),
      if_neg (show ¬(i = r - 1 ∧ j = c + 1 ∨ i = r ∧ j = c + 1 ∨ i = r + 1 ∧ j = c + 1) by omega),
      if_neg (show ¬(i + 1 = r - 1 ∧ j = c + 1 ∨ i + 1 = r ∧ j = c + 1 ∨ i + 1 = r + 1 ∧ j = c + 1) by omega),
      if_neg (show ¬(i = r - 1 + 1 ∧ j = c ∨ i = r + 1 ∧ j = c ∨ i = r + 1 + 1 ∧ j = c) by omega),
      if_neg (show ¬(i + 1 = r - 1 ∧ j = c ∨ i + 1 = r ∧ j = c ∨ i + 1 = r + 1 ∧ j = c) by omega),
      if_neg (show ¬(i = r - 1 + 1 ∧ j + 1 = c ∨ i = r + 1 ∧ j + 1 = c ∨ i = r + 1 + 1 ∧ j + 1 = c) by omega),
      if_neg (show ¬(i = r - 1 ∧ j + 1 = c ∨ i = r ∧ j + 1 = c ∨ i = r + 1 ∧ j + 1 = c) by omega),
      if_pos (show i + 1 = r - 1 ∧ j + 1 = c ∨ i + 1 = r ∧ j + 1 = c ∨ i + 1 = r + 1 ∧ j + 1 = c by omega)]
    split_ifs <;> omega
  · rw [if_neg (show ¬(i = r - 1 + 1 ∧ j = c + 1 ∨ i = r + 1 ∧ j = c + 1 ∨ i = r + 1 + 1 ∧ j = c + 1) by omega),
      if_neg (show ¬(i = r - 1 ∧ j = c + 1 ∨ i = r ∧ j = c + 1 ∨ i = r + 1 ∧ j = c + 1) by omega),
      if_neg (show ¬(i + 1 = r - 1 ∧ j = c + 1 ∨ i + 1 = r ∧ j = c + 1 ∨ i + 1 = r + 1 ∧ j = c + 1) by omega),
      if_neg (show ¬(i = r - 1 + 1 ∧ j = c ∨ i = r + 1 ∧ j = c ∨ i = r + 1 + 1 ∧ j = c) by omega),
      if_pos (show i + 1 = r - 1 ∧ j = c ∨ i + 1 = r ∧ j = c ∨ i + 1 = r + 1 ∧ j = c by omega),
      if_neg (show ¬(i = r - 1 + 1 ∧ j + 1 = c ∨ i = r + 1 ∧ j + 1 = c ∨ i = r + 1 + 1 ∧ j + 1 = c) by omega),
      if_neg (show ¬(i = r - 1 ∧ j + 1 = c ∨ i = r ∧ j + 1 = c ∨ i = r + 1 ∧ j + 1 = c) by omega),
      if_neg (show ¬(i + 1 = r - 1 ∧ j + 1 = c ∨ i + 1 = r ∧ j + 1 = c ∨ i + 1 = r + 1 ∧ j + 1 = c) by omega)]
    split_ifs <;> omega
  · rw [if_neg (show ¬(i = r - 1 + 1 ∧ j = c + 1 ∨ i = r + 1 ∧ j = c + 1 ∨ i = r + 1 + 1 ∧ j = c + 1) by omega),
      if_neg (show ¬(i = r - 1 ∧ j = c + 1 ∨ i = r ∧ j = c + 1 ∨ i = r + 1 ∧ j = c + 1) by omega),
      if_pos (show i + 1 = r - 1 ∧ j = c + 1 ∨ i + 1 = r ∧ j = c + 1 ∨ i + 1 = r + 1 ∧ j = c + 1 by omega),
      if_neg (show ¬(i = r - 1 + 1 ∧ j = c ∨ i = r + 1 ∧ j = c ∨ i = r + 1 + 1 ∧ j = c) by omega),
      if_neg (show ¬(i + 1 = r - 1 ∧ j = c ∨ i + 1 = r ∧ j = c ∨ i + 1 = r + 1 ∧ j = c) by omega),
      if_neg (show ¬(i = r - 1 + 1 ∧ j + 1 = c ∨ i = r + 1 ∧ j + 1 = c ∨ i = r + 1 + 1 ∧ j + 1 = c) by omega),
      if_neg (show ¬(i = r - 1 ∧ j + 1 = c ∨ i = r ∧ j + 1 = c ∨ i = r + 1 ∧ j + 1 = c) by omega),
      if_neg (show ¬(i + 1 = r - 1 ∧ j + 1 = c ∨ i + 1 = r ∧ j + 1 = c ∨ i + 1 = r + 1 ∧ j + 1 = c) by omega)]
    split_ifs <;> omega
  · rw [if_neg (show ¬(i = r - 1 + 1 ∧ j = c + 1 ∨ i = r + 1 ∧ j = c + 1 ∨ i = r + 1 + 1 ∧ j = c + 1) by omega),
      if_neg (show ¬(i = r - 1 ∧ j = c + 1 ∨ i = r ∧ j = c + 1 ∨ i = r + 1 ∧ j = c + 1) by omega),
      if_neg (show ¬(i + 1 = r - 1 ∧ j = c + 1 ∨ i + 1 = r ∧ j = c + 1 ∨ i + 1 = r + 1 ∧ j = c + 1) by omega),
      if_neg (show ¬(i = r - 1 + 1 ∧ j = c ∨ i = r + 1 ∧ j = c ∨ i = r + 1 + 1 ∧ j = c) by omega),
      if_neg (show ¬(i + 1 = r - 1 ∧ j = c ∨ i + 1 = r ∧ j = c ∨ i + 1 = r + 1 ∧ j = c) by omega),
      if_neg (show ¬(i = r - 1 + 1 ∧ j + 1 = c ∨ i = r + 1 ∧ j + 1 = c ∨ i = r + 1 + 1 ∧ j + 1 = c) by omega),
      if_neg (show ¬(i = r - 1 ∧ j + 1 = c ∨ i = r ∧ j + 1 = c ∨ i = r + 1 ∧ j + 1 = c) by omega),
      if_neg (show ¬(i + 1 = r - 1 ∧ j + 1 = c ∨ i + 1 = r ∧ j + 1 = c ∨ i + 1 = r + 1 ∧ j + 1 = c) by omega)]
    split_ifs <;> omega
  · rw [if_neg (show ¬(i = r - 1 + 1 ∧ j = c + 1 ∨ i = r + 1 ∧ j = c + 1 ∨ i = r + 1 + 1 ∧ j = c + 1) by omega),
      if_neg (show ¬(i = r - 1 ∧ j = c + 1 ∨ i = r ∧ j = c + 1 ∨ i = r + 1 ∧ j = c + 1) by omega),
      if_neg (show ¬(i + 1 = r - 1 ∧ j = c + 1 ∨ i + 1 = r ∧ j = c + 1 ∨ i + 1 = r + 1 ∧ j = c + 1) by omega),
      if_neg (show ¬(i = r - 1 + 1 ∧ j = c ∨ i = r + 1 ∧ j = c ∨ i = r + 1 + 1 ∧ j = c) by omega),
      if_neg (show ¬(i + 1 = r - 1 ∧ j = c ∨ i + 1 = r ∧ j = c ∨ i + 1 = r + 1 ∧ j = c) by omega),
      if_neg (show ¬(i = r - 1 + 1 ∧ j + 1 = c ∨ i = r + 1 ∧ j + 1 = c ∨ i = r + 1 + 1 ∧ j + 1 = c) by omega),
      if_pos (show i = r - 1 ∧ j + 1 = c ∨ i = r ∧ j + 1 = c ∨ i = r + 1 ∧ j + 1 = c by omega),
      if_pos (show i + 1 = r - 1 ∧ j + 1 = c ∨ i + 1 = r ∧ j + 1 = c ∨ i + 1 = r + 1 ∧ j + 1 = c by omega)]
    split_ifs <;> omega
  · rw [if_neg (show ¬(i = r - 1 + 1 ∧ j = c + 1 ∨ i = r + 1 ∧ j = c + 1 ∨ i = r + 1 + 1 ∧ j = c + 1) by omega),
      if_neg (show ¬(i = r - 1 ∧ j = c + 1 ∨ i = r ∧ j = c + 1 ∨ i = r + 1 ∧ j = c + 1) by omega),
      if_neg (show ¬(i + 1 = r - 1 ∧ j = c + 1 ∨ i + 1 = r ∧ j = c + 1 ∨ i + 1 = r + 1 ∧ j = c + 1) by omega),
      if_neg (show ¬(i = r - 1 + 1 ∧ j = c ∨ i = r + 1 ∧ j = c ∨ i = r + 1 + 1 ∧ j = c) by omega),
      if_pos (show i + 1 = r - 1 ∧ j = c ∨ i + 1 = r ∧ j = c ∨ i + 1 = r + 1 ∧ j = c by omega),
      if_neg (show ¬(i = r - 1 + 1 ∧ j + 1 = c ∨ i = r + 1 ∧ j + 1 = c ∨ i = r + 1 + 1 ∧ j + 1 = c) by omega),
      if_neg (show ¬(i = r - 1 ∧ j + 1 = c ∨ i = r ∧ j + 1 = c ∨ i = r + 1 ∧ j + 1 = c) by omega),
      if_neg (show ¬(i + 1 = r - 1 ∧ j + 1 = c ∨ i + 1 = r ∧ j + 1 = c ∨ i + 1 = r + 1 ∧ j + 1 = c) by omega)]
    split_ifs <;> omega
  · rw [if_neg (show ¬(i = r - 1 + 1 ∧ j = c + 1 ∨ i = r + 1 ∧ j = c + 1 ∨ i = r + 1 + 1 ∧ j = c + 1) by omega),
      if_pos (show i = r - 1 ∧ j = c + 1 ∨ i = r ∧ j = c + 1 ∨ i = r + 1 ∧ j = c + 1 by omega),
      if_pos (show i + 1 = r - 1 ∧ j = c + 1 ∨ i + 1 = r ∧ j = c + 1 ∨ i + 1 = r + 1 ∧ j = c + 1 by omega),
      if_neg (show ¬(i = r - 1 + 1 ∧ j = c ∨ i = r + 1 ∧ j = c ∨ i = r + 1 + 1 ∧ j = c) by omega),
      if_neg (show ¬(i + 1 = r - 1 ∧ j = c ∨ i + 1 = r ∧ j = c ∨ i + 1 = r + 1 ∧ j = c) by omega),
      if_neg (show ¬(i = r - 1 + 1 ∧ j + 1 = c ∨ i = r + 1 ∧ j + 1 = c ∨ i = r + 1 + 1 ∧ j + 1 = c) by omega),
      if_neg (show ¬(i = r - 1 ∧ j + 1 = c ∨ i = r ∧ j + 1 = c ∨ i = r + 1 ∧ j + 1 = c) by omega),
      if_neg (show ¬(i + 1 = r - 1 ∧ j + 1 = c ∨ i + 1 = r ∧ j + 1 = c ∨ i + 1 = r + 1 ∧ j + 1 = c) by omega)]
    split_ifs <;> omega
  · rw [if_neg (show ¬(i = r - 1 + 1 ∧ j = c + 1 ∨ i = r + 1 ∧ j = c + 1 ∨ i = r + 1 + 1 ∧ j = c + 1) by omega),
      if_neg (show ¬(i = r - 1 ∧ j = c + 1 ∨ i = r ∧ j = c + 1 ∨ i = r + 1 ∧ j = c + 1) by omega),
      if_neg (show ¬(i + 1 = r - 1 ∧ j = c + 1 ∨ i + 1 = r ∧ j = c + 1 ∨ i + 1 = r + 1 ∧ j = c + 1) by omega),
      if_neg (show ¬(i = r - 1 + 1 ∧ j = c ∨ i = r + 1 ∧ j = c ∨ i = r + 1 + 1 ∧ j = c) by omega),
      if_neg (show ¬(i + 1 = r - 1 ∧ j = c ∨ i + 1 = r ∧ j = c ∨ i + 1 = r + 1 ∧ j = c) by omega),
      if_neg (show ¬(i = r - 1 + 1 ∧ j + 1 = c ∨ i = r + 1 ∧ j + 1 = c ∨ i = r + 1 + 1 ∧ j + 1 = c) by omega),
      if_neg (show ¬(i = r - 1 ∧ j + 1 = c ∨ i = r ∧ j + 1 = c ∨ i = r + 1 ∧ j + 1 = c) by omega),
      if_neg (show ¬(i + 1 = r - 1 ∧ j + 1 = c ∨ i + 1 = r ∧ j + 1 = c ∨ i + 1 = r + 1 ∧ j + 1 = c) by omega)]
    split_ifs <;> omega
  · rw [if_neg (show ¬(i = r - 1 + 1 ∧ j = c + 1 ∨ i = r + 1 ∧ j = c + 1 ∨ i = r + 1 + 1 ∧ j = c + 1) by omega),
      if_neg (show ¬(i = r - 1 ∧ j = c + 1 ∨ i = r ∧ j = c + 1 ∨ i = r + 1 ∧ j = c + 1) by omega),
      if_neg (show ¬(i + 1 = r - 1 ∧ j = c + 1 ∨ i + 1 = r ∧ j = c + 1 ∨ i + 1 = r + 1 ∧ j = c + 1) by omega),
      if_neg (show ¬(i = r - 1 + 1 ∧ j = c ∨ i = r + 1 ∧ j = c ∨ i = r + 1 + 1 ∧ j = c) by omega),
      if_neg (show ¬(i + 1 = r - 1 ∧ j = c ∨ i + 1 = r ∧ j = c ∨ i + 1 = r + 1 ∧ j = c) by omega),
      if_pos (show i = r - 1 + 1 ∧ j + 1 = c ∨ i = r + 1 ∧ j + 1 = c ∨ i = r + 1 + 1 ∧ j + 1 = c by omega),
      if_pos (show i = r - 1 ∧ j + 1 = c ∨ i = r ∧ j + 1 = c ∨ i = r + 1 ∧ j + 1 = c by omega),
      if_pos (show i + 1 = r - 1 ∧ j + 1 = c ∨ i + 1 = r ∧ j + 1 = c ∨ i + 1 = r + 1 ∧ j + 1 = c by omega)]
    split_ifs <;> omega
  · rw [if_neg (show ¬(i = r - 1 + 1 ∧ j = c + 1 ∨ i = r + 1 ∧ j = c + 1 ∨ i = r + 1 + 1 ∧ j = c + 1) by omega),
      if_neg (show ¬(i = r - 1 ∧ j = c + 1 ∨ i = r ∧ j = c + 1 ∨ i = r + 1 ∧ j = c + 1) by omega),
      if_neg (show ¬(i + 1 = r - 1 ∧ j = c + 1 ∨ i + 1 = r ∧ j = c + 1 ∨ i + 1 = r + 1 ∧ j = c + 1) by omega),
      if_pos (show i = r - 1 + 1 ∧ j = c ∨ i = r + 1 ∧ j = c ∨ i = r + 1 + 1 ∧ j = c by omega),
      if_pos (show i + 1 = r - 1 ∧ j = c ∨ i + 1 = r ∧ j = c ∨ i + 1 = r + 1 ∧ j = c by omega),
      if_neg (show ¬(i = r - 1 + 1 ∧ j + 1 = c ∨ i = r + 1 ∧ j + 1 = c ∨ i = r + 1 + 1 ∧ j + 1 = c) by omega),
      if_neg (show ¬(i = r - 1 ∧ j + 1 = c ∨ i = r ∧ j + 1 = c ∨ i = r + 1 ∧ j + 1 = c) by omega),
      if_neg (show ¬(i + 1 = r - 1 ∧ j + 1 = c ∨ i + 1 = r ∧ j + 1 = c ∨ i + 1 = r + 1 ∧ j + 1 = c) by omega)]
    split_ifs <;> omega
  · rw [if_pos (show i = r - 1 + 1 ∧ j = c + 1 ∨ i = r + 1 ∧ j = c + 1 ∨ i = r + 1 + 1 ∧ j = c + 1 by omega),
      if_pos (show i = r - 1 ∧ j = c + 1 ∨ i = r ∧ j = c + 1 ∨ i = r + 1 ∧ j = c + 1 by omega),
      if_pos (show i + 1 = r - 1 ∧ j = c + 1 ∨ i + 1 = r ∧ j = c + 1 ∨ i + 1 = r + 1 ∧ j = c + 1 by omega),
      if_neg (show ¬(i = r - 1 + 1 ∧ j = c ∨ i = r + 1 ∧ j = c ∨ i = r + 1 + 1 ∧ j = c) by omega),
      if_neg (show ¬(i + 1 = r - 1 ∧ j = c ∨ i + 1 = r ∧ j = c ∨ i + 1 = r + 1 ∧ j = c) by omega),
      if_neg (show ¬(i = r - 1 + 1 ∧ j + 1 = c ∨ i = r + 1 ∧ j + 1 = c ∨ i = r + 1 + 1 ∧ j + 1 = c) by omega),
      if_neg (show ¬(i = r - 1 ∧ j + 1 = c ∨ i = r ∧ j + 1 = c ∨ i = r + 1 ∧ j + 1 = c) by omega),
      if_neg (show ¬(i + 1 = r - 1 ∧ j + 1 = c ∨ i + 1 = r ∧ j + 1 = c ∨ i + 1 = r + 1 ∧ j + 1 = c) by omega)]
    split_ifs <;> omega
  · rw [if_neg (show ¬(i = r - 1 + 1 ∧ j = c + 1 ∨ i = r + 1 ∧ j = c + 1 ∨ i = r + 1 + 1 ∧ j = c + 1) by omega),
      if_neg (show ¬(i = r - 1 ∧ j = c + 1 ∨ i = r ∧ j = c + 1 ∨ i = r + 1 ∧ j = c + 1) by omega),
      if_neg (show ¬(i + 1 = r - 1 ∧ j = c + 1 ∨ i + 1 = r ∧ j = c + 1 ∨ i + 1 = r + 1 ∧ j = c + 1) by omega),
      if_neg (show ¬(i = r - 1 + 1 ∧ j = c ∨ i = r + 1 ∧ j = c ∨ i = r + 1 + 1 ∧ j = c) by omega),
      if_neg (show ¬(i + 1 = r - 1 ∧ j = c ∨ i + 1 = r ∧ j = c ∨ i + 1 = r + 1 ∧ j = c) by omega),
      if_neg (show ¬(i = r - 1 + 1 ∧ j + 1 = c ∨ i = r + 1 ∧ j + 1 = c ∨ i = r + 1 + 1 ∧ j + 1 = c) by omega),
      if_neg (show ¬(i = r - 1 ∧ j + 1 = c ∨ i = r ∧ j + 1 = c ∨ i = r + 1 ∧ j + 1 = c) by omega),
      if_neg (show ¬(i + 1 = r - 1 ∧ j + 1 = c ∨ i + 1 = r ∧ j + 1 = c ∨ i + 1 = r + 1 ∧ j + 1 = c) by omega)]
    split_ifs <;> omega
  · rw [if_neg (show ¬(i = r - 1 + 1 ∧ j = c + 1 ∨ i = r + 1 ∧ j = c + 1 ∨ i = r + 1 + 1 ∧ j = c + 1) by omega),
      if_neg (show ¬(i = r - 1 ∧ j = c + 1 ∨ i = r ∧ j = c + 1 ∨ i = r + 1 ∧ j = c + 1) by omega),
      if_neg (show ¬(i + 1 = r - 1 ∧ j = c + 1 ∨ i + 1 = r ∧ j = c + 1 ∨ i + 1 = r + 1 ∧ j = c + 1) by omega),
      if_neg (show ¬(i = r - 1 + 1 ∧ j = c ∨ i = r + 1 ∧ j = c ∨ i = r + 1 + 1 ∧ j = c) by omega),
      if_neg (show ¬(i + 1 = r - 1 ∧ j = c ∨ i + 1 = r ∧ j = c ∨ i + 1 = r + 1 ∧ j = c) by omega),
      if_pos (show i = r - 1 + 1 ∧ j + 1 = c ∨ i = r + 1 ∧ j + 1 = c ∨ i = r + 1 + 1 ∧ j + 1 = c by omega),
      if_pos (show i = r - 1 ∧ j + 1 = c ∨ i = r ∧ j + 1 = c ∨ i = r + 1 ∧ j + 1 = c by omega),
      if_neg (show ¬(i + 1 = r - 1 ∧ j + 1 = c ∨ i + 1 = r ∧ j + 1 = c ∨ i + 1 = r + 1 ∧ j + 1 = c) by omega)]
    split_ifs <;> omega
  · rw [if_neg (show ¬(i = r - 1 + 1 ∧ j = c + 1 ∨ i = r + 1 ∧ j = c + 1 ∨ i = r + 1 + 1 ∧ j = c + 1) by omega),
      if_neg (show ¬(i = r - 1 ∧ j = c + 1 ∨ i = r ∧ j = c + 1 ∨ i = r + 1 ∧ j = c + 1) by omega),
      if_neg (show ¬(i + 1 = r - 1 ∧ j = c + 1 ∨ i + 1 = r ∧ j = c + 1 ∨ i + 1 = r + 1 ∧ j = c + 1) by omega),
      if_pos (show i = r - 1 + 1 ∧ j = c ∨ i = r + 1 ∧ j = c ∨ i = r + 1 + 1 ∧ j = c by omega),
      if_neg (show ¬(i + 1 = r - 1 ∧ j = c ∨ i + 1 = r ∧ j = c ∨ i + 1 = r + 1 ∧ j = c) by omega),
      if_neg (show ¬(i = r - 1 + 1 ∧ j + 1 = c ∨ i = r + 1 ∧ j + 1 = c ∨ i = r + 1 + 1 ∧ j + 1 = c) by omega),
      if_neg (show ¬(i = r - 1 ∧ j + 1 = c ∨ i = r ∧ j + 1 = c ∨ i = r + 1 ∧ j + 1 = c) by omega),
      if_neg (show ¬(i + 1 = r - 1 ∧ j + 1 = c ∨ i + 1 = r ∧ j + 1 = c ∨ i + 1 = r + 1 ∧ j + 1 = c) by omega)]
    split_ifs <;> omega
  · rw [if_pos (show i = r - 1 + 1 ∧ j = c + 1 ∨ i = r + 1 ∧ j = c + 1 ∨ i = r + 1 + 1 ∧ j = c + 1 by omega),
      if_pos (show i = r - 1 ∧ j = c + 1 ∨ i = r ∧ j = c + 1 ∨ i = r + 1 ∧ j = c + 1 by omega),
      if_neg (show ¬(i + 1 = r - 1 ∧ j = c + 1 ∨ i + 1 = r ∧ j = c + 1 ∨ i + 1 = r + 1 ∧ j = c + 1) by omega),
      if_neg (show ¬(i = r - 1 + 1 ∧ j = c ∨ i = r + 1 ∧ j = c ∨ i = r + 1 + 1 ∧ j = c) by omega),
      if_neg (show ¬(i + 1 = r - 1 ∧ j = c ∨ i + 1 = r ∧ j = c ∨ i + 1 = r + 1 ∧ j = c) by omega),
      if_neg (show ¬(i = r - 1 + 1 ∧ j + 1 = c ∨ i = r + 1 ∧ j + 1 = c ∨ i = r + 1 + 1 ∧ j + 1 = c) by omega),
      if_neg (show ¬(i = r - 1 ∧ j + 1 = c ∨ i = r ∧ j + 1 = c ∨ i = r + 1 ∧ j + 1 = c) by omega),
      if_neg (show ¬(i + 1 = r - 1 ∧ j + 1 = c ∨ i + 1 = r ∧ j + 1 = c ∨ i + 1 = r + 1 ∧ j + 1 = c) by omega)]
    split_ifs <;> omega
  · rw [if_neg (show ¬(i = r - 1 + 1 ∧ j = c + 1 ∨ i = r + 1 ∧ j = c + 1 ∨ i = r + 1 + 1 ∧ j = c + 1) by omega),
      if_neg (show ¬(i = r - 1 ∧ j = c + 1 ∨ i = r ∧ j = c + 1 ∨ i = r + 1 ∧ j = c + 1) by omega),
      if_neg (show ¬(i + 1 = r - 1 ∧ j = c + 1 ∨ i + 1 = r ∧ j = c + 1 ∨ i + 1 = r + 1 ∧ j = c + 1) by omega),
      if_neg (show ¬(i = r - 1 + 1 ∧ j = c ∨ i = r + 1 ∧ j = c ∨ i = r + 1 + 1 ∧ j = c) by omega),
      if_neg (show ¬(i + 1 = r - 1 ∧ j = c ∨ i + 1 = r ∧ j = c ∨ i + 1 = r + 1 ∧ j = c) by omega),
      if_neg (show ¬(i = r - 1 + 1 ∧ j + 1 = c ∨ i = r + 1 ∧ j + 1 = c ∨ i = r + 1 + 1 ∧ j + 1 = c) by omega),
      if_neg (show ¬(i = r - 1 ∧ j + 1 = c ∨ i = r ∧ j + 1 = c ∨ i = r + 1 ∧ j + 1 = c) by omega),
      if_neg (show ¬(i + 1 = r - 1 ∧ j + 1 = c ∨ i + 1 = r ∧ j + 1 = c ∨ i + 1 = r + 1 ∧ j + 1 = c) by omega)]
    split_ifs <;> omega
  · rw [if_neg (show ¬(i = r - 1 + 1 ∧ j = c + 1 ∨ i = r + 1 ∧ j = c + 1 ∨ i = r + 1 + 1 ∧ j = c + 1) by omega),
      if_neg (show ¬(i = r - 1 ∧ j = c + 1 ∨ i = r ∧ j = c + 1 ∨ i = r + 1 ∧ j = c + 1) by omega),
      if_neg (show ¬(i + 1 = r - 1 ∧ j = c + 1 ∨ i + 1 = r ∧ j = c + 1 ∨ i + 1 = r + 1 ∧ j = c + 1) by omega),
      if_neg (show ¬(i = r - 1 + 1 ∧ j = c ∨ i = r + 1 ∧ j = c ∨ i = r + 1 + 1 ∧ j = c) by omega),
      if_neg (show ¬(i + 1 = r - 1 ∧ j = c ∨ i + 1 = r ∧ j = c ∨ i + 1 = r + 1 ∧ j = c) by omega),
      if_pos (show i = r - 1 + 1 ∧ j + 1 = c ∨ i = r + 1 ∧ j + 1 = c ∨ i = r + 1 + 1 ∧ j + 1 = c by omega),
      if_neg (show ¬(i = r - 1 ∧ j + 1 = c ∨ i = r ∧ j + 1 = c ∨ i = r + 1 ∧ j + 1 = c) by omega),
      if_neg (show ¬(i + 1 = r - 1 ∧ j + 1 = c ∨ i + 1 = r ∧ j + 1 = c ∨ i + 1 = r + 1 ∧ j + 1 = c) by omega)]
    split_ifs <;> omega
  · rw [if_neg (show ¬(i = r - 1 + 1 ∧ j = c + 1 ∨ i = r + 1 ∧ j = c + 1 ∨ i = r + 1 + 1 ∧ j = c + 1) by omega),
      if_neg (show ¬(i = r - 1 ∧ j = c + 1 ∨ i = r ∧ j = c + 1 ∨ i = r + 1 ∧ j = c + 1) by omega),
      if_neg (show ¬(i + 1 = r - 1 ∧ j = c + 1 ∨ i + 1 = r ∧ j = c + 1 ∨ i + 1 = r + 1 ∧ j = c + 1) by omega),
      if_pos (show i = r - 1 + 1 ∧ j = c ∨ i = r + 1 ∧ j = c ∨ i = r + 1 + 1 ∧ j = c by omega),
      if_neg (show ¬(i + 1 = r - 1 ∧ j = c ∨ i + 1 = r ∧ j = c ∨ i + 1 = r + 1 ∧ j = c) by omega),
      if_neg (show ¬(i = r - 1 + 1 ∧ j + 1 = c ∨ i = r + 1 ∧ j + 1 = c ∨ i = r + 1 + 1 ∧ j + 1 = c) by omega),
      if_neg (show ¬(i = r - 1 ∧ j + 1 = c ∨ i = r ∧ j + 1 = c ∨ i = r + 1 ∧ j + 1 = c) by omega),
      if_neg (show ¬(i + 1 = r - 1 ∧ j + 1 = c ∨ i + 1 = r ∧ j + 1 = c ∨ i + 1 = r + 1 ∧ j + 1 = c) by omega)]
    split_ifs <;> omega
  · rw [if_pos (show i = r - 1 + 1 ∧ j = c + 1 ∨ i = r + 1 ∧ j = c + 1 ∨ i = r + 1 + 1 ∧ j = c + 1 by omega),
      if_neg (show ¬(i = r - 1 ∧ j = c + 1 ∨ i = r ∧ j = c + 1 ∨ i = r + 1 ∧ j = c + 1) by omega),
      if_neg (show ¬(i + 1 = r - 1 ∧ j = c + 1 ∨ i + 1 = r ∧ j = c + 1 ∨ i + 1 = r + 1 ∧ j = c + 1) by omega),
      if_neg (show ¬(i = r - 1 + 1 ∧ j = c ∨ i = r + 1 ∧ j = c ∨ i = r + 1 + 1 ∧ j = c) by omega),
      if_neg (show ¬(i + 1 = r - 1 ∧ j = c ∨ i + 1 = r ∧ j = c ∨ i + 1 = r + 1 ∧ j = c) by omega),
      if_neg (show ¬(i = r - 1 + 1 ∧ j + 1 = c ∨ i = r + 1 ∧ j + 1 = c ∨ i = r + 1 + 1 ∧ j + 1 = c) by omega),
      if_neg (show ¬(i = r - 1 ∧ j + 1 = c ∨ i = r ∧ j + 1 = c ∨ i = r + 1 ∧ j + 1 = c) by omega),
      if_neg (show ¬(i + 1 = r - 1 ∧ j + 1 = c ∨ i + 1 = r ∧ j + 1 = c ∨ i + 1 = r + 1 ∧ j + 1 = c) by omega)]
    split_ifs <;> omega
  · rw [if_neg (show ¬(i = r - 1 + 1 ∧ j = c + 1 ∨ i = r + 1 ∧ j = c + 1 ∨ i = r + 1 + 1 ∧ j = c + 1) by omega),
      if_neg (show ¬(i = r - 1 ∧ j = c + 1 ∨ i = r ∧ j = c + 1 ∨ i = r + 1 ∧ j = c + 1) by omega),
      if_neg (show ¬(i + 1 = r - 1 ∧ j = c + 1 ∨ i + 1 = r ∧ j = c + 1 ∨ i + 1 = r + 1 ∧ j = c + 1) by omega),
      if_neg (show ¬(i = r - 1 + 1 ∧ j = c ∨ i = r + 1 ∧ j = c ∨ i = r + 1 + 1 ∧ j = c) by omega),
      if_neg (show ¬(i + 1 = r - 1 ∧ j = c ∨ i + 1 = r ∧ j = c ∨ i + 1 = r + 1 ∧ j = c) by omega),
      if_neg (show ¬(i = r - 1 + 1 ∧ j + 1 = c ∨ i = r + 1 ∧ j + 1 = c ∨ i = r + 1 + 1 ∧ j + 1 = c) by omega),
      if_neg (show ¬(i = r - 1 ∧ j + 1 = c ∨ i = r ∧ j + 1 = c ∨ i = r + 1 ∧ j + 1 = c) by omega),
      if_neg (show ¬(i + 1 = r - 1 ∧ j + 1 = c ∨ i + 1 = r ∧ j + 1 = c ∨ i + 1 = r + 1 ∧ j + 1 = c) by omega)]
    split_ifs <;> omega
  · rw [if_neg (show ¬(i = r - 1 + 1 ∧ j = c + 1 ∨ i = r + 1 ∧ j = c + 1 ∨ i = r + 1 + 1 ∧ j = c + 1) by omega),
      if_neg (show ¬(i = r - 1 ∧ j = c + 1 ∨ i = r ∧ j = c + 1 ∨ i = r + 1 ∧ j = c + 1) by omega),
      if_neg (show ¬(i + 1 = r - 1 ∧ j = c + 1 ∨ i + 1 = r ∧ j = c + 1 ∨ i + 1 = r + 1 ∧ j = c + 1) by omega),
      if_neg (show ¬(i = r - 1 + 1 ∧ j = c ∨ i = r + 1 ∧ j = c ∨ i = r + 1 + 1 ∧ j = c) by omega),
      if_neg (show ¬(i + 1 = r - 1 ∧ j = c ∨ i + 1 = r ∧ j = c ∨ i + 1 = r + 1 ∧ j = c) by omega),
      if_neg (show ¬(i = r - 1 + 1 ∧ j + 1 = c ∨ i = r + 1 ∧ j + 1 = c ∨ i = r + 1 + 1 ∧ j + 1 = c) by omega),
      if_neg (show ¬(i = r - 1 ∧ j + 1 = c ∨ i = r ∧ j + 1 = c ∨ i = r + 1 ∧ j + 1 = c) by omega),
      if_neg (show ¬(i + 1 = r - 1 ∧ j + 1 = c ∨ i + 1 = r ∧ j + 1 = c ∨ i + 1 = r + 1 ∧ j + 1 = c) by omega)]
    split_ifs <;> omega
  · rw [if_neg (show ¬(i = r - 1 + 1 ∧ j = c + 1 ∨ i = r + 1 ∧ j = c + 1 ∨ i = r + 1 + 1 ∧ j = c + 1) by omega),
      if_neg (show ¬(i = r - 1 ∧ j = c + 1 ∨ i = r ∧ j = c + 1 ∨ i = r + 1 ∧ j = c + 1) by omega),
      if_neg (show ¬(i + 1 = r - 1 ∧ j = c + 1 ∨ i + 1 = r ∧ j = c + 1 ∨ i + 1 = r + 1 ∧ j = c + 1) by omega),
      if_neg (show ¬(i = r - 1 + 1 ∧ j = c ∨ i = r + 1 ∧ j = c ∨ i = r + 1 + 1 ∧ j = c) by omega),
      if_neg (show ¬(i + 1 = r - 1 ∧ j = c ∨ i + 1 = r ∧ j = c ∨ i + 1 = r + 1 ∧ j = c) by omega),
      if_neg (show ¬(i = r - 1 + 1 ∧ j + 1 = c ∨ i = r + 1 ∧ j + 1 = c ∨ i = r + 1 + 1 ∧ j + 1 = c) by omega),
      if_neg (show ¬(i = r - 1 ∧ j + 1 = c ∨ i = r ∧ j + 1 = c ∨ i = r + 1 ∧ j + 1 = c) by omega),
      if_neg (show ¬(i + 1 = r - 1 ∧ j + 1 = c ∨ i + 1 = r ∧ j + 1 = c ∨ i + 1 = r + 1 ∧ j + 1 = c) by omega)]
    split_ifs <;> omega
  · rw [if_neg (show ¬(i = r - 1 + 1 ∧ j = c + 1 ∨ i = r + 1 ∧ j = c + 1 ∨ i = r + 1 + 1 ∧ j = c + 1) by omega),
      if_neg (show ¬(i = r - 1 ∧ j = c + 1 ∨ i = r ∧ j = c + 1 ∨ i = r + 1 ∧ j = c + 1) by omega),
      if_neg (show ¬(i + 1 = r - 1 ∧ j = c + 1 ∨ i + 1 = r ∧ j = c + 1 ∨ i + 1 = r + 1 ∧ j = c + 1) by omega),
      if_neg (show ¬(i = r - 1 + 1 ∧ j = c ∨ i = r + 1 ∧ j = c ∨ i = r + 1 + 1 ∧ j = c) by omega),
      if_neg (show ¬(i + 1 = r - 1 ∧ j = c ∨ i + 1 = r ∧ j = c ∨ i + 1 = r + 1 ∧ j = c) by omega),
      if_neg (show ¬(i = r - 1 + 1 ∧ j + 1 = c ∨ i = r + 1 ∧ j + 1 = c ∨ i = r + 1 + 1 ∧ j + 1 = c) by omega),
      if_neg (show ¬(i = r - 1 ∧ j + 1 = c ∨ i = r ∧ j + 1 = c ∨ i = r + 1 ∧ j + 1 = c) by omega),
      if_neg (show ¬(i + 1 = r - 1 ∧ j + 1 = c ∨ i + 1 = r ∧ j + 1 = c ∨ i + 1 = r + 1 ∧ j + 1 = c) by omega)]
    split_ifs <;> omega
  · rw [if_neg (show ¬(i = r - 1 + 1 ∧ j = c + 1 ∨ i = r + 1 ∧ j = c + 1 ∨ i = r + 1 + 1 ∧ j = c + 1) by omega),
      if_neg (show ¬(i = r - 1 ∧ j = c + 1 ∨ i = r ∧ j = c + 1 ∨ i = r + 1 ∧ j = c + 1) by omega),
      if_neg (show ¬(i + 1 = r - 1 ∧ j = c + 1 ∨ i + 1 = r ∧ j = c + 1 ∨ i + 1 = r + 1 ∧ j = c + 1) by omega),
      if_neg (show ¬(i = r - 1 + 1 ∧ j = c ∨ i = r + 1 ∧ j = c ∨ i = r + 1 + 1 ∧ j = c) by omega),
      if_neg (show ¬(i + 1 = r - 1 ∧ j = c ∨ i + 1 = r ∧ j = c ∨ i + 1 = r + 1 ∧ j = c) by omega),
      if_neg (show ¬(i = r - 1 + 1 ∧ j + 1 = c ∨ i = r + 1 ∧ j + 1 = c ∨ i = r + 1 + 1 ∧ j + 1 = c) by omega),
      if_neg (show ¬(i = r - 1 ∧ j + 1 = c ∨ i = r ∧ j + 1 = c ∨ i = r + 1 ∧ j + 1 = c) by omega),
      if_neg (show ¬(i + 1 = r - 1 ∧ j + 1 = c ∨ i + 1 = r ∧ j + 1 = c ∨ i + 1 = r + 1 ∧ j + 1 = c) by omega)]
    split_ifs <;> omega

theorem blinkerV_cells_length (n r c : Nat) : (blinkerV n r c).cells.length = n * n := by
  simp [blinkerV, threeCells]

set_option maxHeartbeats 1600000 in
theorem tick_blinkerV (n r c : Nat) (hn : 5 ≤ n) (hr2 : 2 ≤ r) (hr3 : r + 3 ≤ n)
    (hc2 : 2 ≤ c) (hc3 : c + 3 ≤ n) : tick (blinkerV n r c) = blinkerH n r c := by
  have hnpos : 0 < n := by omega
  have hcells : (tick (blinkerV n r c)).cells = (blinkerH n r c).cells := by
    apply List.ext_getElem?
    intro k
    rw [tick_cells_getElem?]
    by_cases hk : k < n * n
    · obtain ⟨i, j, hi, hj, rfl⟩ : ∃ i j, i < n ∧ j < n ∧ k = i * n + j := by
        refine ⟨k / n, k % n, ?_, Nat.mod_lt _ hnpos, ?_⟩
        · exact Nat.div_lt_of_lt_mul hk
        · rw [Nat.mul_comm]
          exact (Nat.div_add_mod k n).symm
      have hk2 : i * n + j < (blinkerV n r c).cells.length := by
        rw [blinkerV_cells_length]; exact hk
      rw [if_pos ⟨(show i * n + j < (blinkerV n r c).height * (blinkerV n r c).width from hk), hk2⟩]
      have hdiv : (i * n + j) / n = i := by
        rw [Nat.mul_comm, Nat.mul_add_div hnpos, Nat.div_eq_of_lt hj, Nat.add_zero]
      have hmod : (i * n + j) % n = j := by
        rw [Nat.mul_comm, Nat.mul_add_mod]
        exact Nat.mod_eq_of_lt hj
      simp only [next_at]
      rw [show (blinkerV n r c).width = n from rfl, hdiv, hmod]
      rw [show (blinkerV n r c).cells.getD (i * n + j) Cell.Dead
            = (threeCells n ((r - 1) * n + c) (r * n + c) ((r + 1) * n + c)).getD (i * n + j) Cell.Dead from rfl]
      rw [threeCells_getD n _ _ _ _ hk]
      rw [lnc_blinkerV n r c i j hn hr2 hr3 hc2 hc3 hi hj]
      rw [show (blinkerH n r c).cells = threeCells n (r * n + (c - 1)) (r * n + c) (r * n + (c + 1)) from rfl]
      rw [threeCells_getElem? n _ _ _ _ hk]
      have FH1 := fun a => flat_eq_iff n a j r (c - 1) hj (by omega)
      have FH2 := fun a => flat_eq_iff n a j r c hj (by omega)
      have FH3 := fun a => flat_eq_iff n a j r (c + 1) hj (by omega)
      have FV1 := fun a => flat_eq_iff n a j (r - 1) c hj (by omega)
      have FV3 := fun a => flat_eq_iff n a j (r + 1) c hj (by omega)
      simp only [FH1, FH2, FH3, FV1, FV3, hBlinkCount]
      rcases (show i + 2 = r ∨ i + 1 = r ∨ i = r ∨ i = r + 1 ∨ i = r + 2 ∨ (i + 2 ≠ r ∧ i + 1 ≠ r ∧ i ≠ r ∧ i ≠ r + 1 ∧ i ≠ r + 2) from by omega) with hzi | hzi | hzi | hzi | hzi | hzi <;>
        rcases (show j + 1 = c ∨ j = c ∨ j = c + 1 ∨ (j + 1 ≠ c ∧ j ≠ c ∧ j ≠ c + 1) from by omega) with hzj | hzj | hzj | hzj
      · rw [if_neg (show ¬(i = r - 1 ∧ j = c ∨ i = r ∧ j = c ∨ i = r + 1 ∧ j = c) by omega),
          if_pos (show j + 1 = c ∨ j = c + 1 by omega),
          if_neg (show ¬(i = r) by omega),
          if_neg (show ¬(i + 1 = r ∨ i = r + 1) by omega),
          if_pos (show i + 2 = r ∨ i = r + 2 by omega),
          if_neg (show ¬(i = r ∧ j = c - 1 ∨ i = r ∧ j = c ∨ i = r ∧ j = c + 1) by omega)]
        rfl
      · rw [if_neg (show ¬(i = r - 1 ∧ j = c ∨ i = r ∧ j = c ∨ i = r + 1 ∧ j = c) by omega),
          if_neg (show ¬(j + 1 = c ∨ j = c + 1) by omega),
          if_pos (show j = c by omega),
          if_neg (show ¬(i = r) by omega),
          if_pos (show i + 2 = r ∨ i + 1 = r ∨ i = r + 1 ∨ i = r + 2 by omega),
          if_neg (show ¬(i = r ∧ j = c - 1 ∨ i = r ∧ j = c ∨ i = r ∧ j = c + 1) by omega)]
        rfl
      · rw [if_neg (show ¬(i = r - 1 ∧ j = c ∨ i = r ∧ j = c ∨ i = r + 1 ∧ j = c) by omega),
          if_pos (show j + 1 = c ∨ j = c + 1 by omega),
          if_neg (show ¬(i = r) by omega),
          if_neg (show ¬(i + 1 = r ∨ i = r + 1) by omega),
          if_pos (show i + 2 = r ∨ i = r + 2 by omega),
          if_neg (show ¬(i = r ∧ j = c - 1 ∨ i = r ∧ j = c ∨ i = r ∧ j = c + 1) by omega)]
        rfl
      · rw [if_neg (show ¬(i = r - 1 ∧ j = c ∨ i = r ∧ j = c ∨ i = r + 1 ∧ j = c) by omega),
          if_neg (show ¬(j + 1 = c ∨ j = c + 1) by omega),
          if_neg (show ¬(j = c) by omega),
          if_neg (show ¬(i = r ∧ j = c - 1 ∨ i = r ∧ j = c ∨ i = r ∧ j = c + 1) by omega)]
        rfl
      · rw [if_neg (show ¬(i = r - 1 ∧ j = c ∨ i = r ∧ j = c ∨ i = r + 1 ∧ j = c) by omega),
          if_pos (show j + 1 = c ∨ j = c + 1 by omega),
          if_neg (show ¬(i = r) by omega),
          if_pos (show i + 1 = r ∨ i = r + 1 by omega),
          if_neg (show ¬(i = r ∧ j = c - 1 ∨ i = r ∧ j = c ∨ i = r ∧ j = c + 1) by omega)]
        rfl
      · rw [if_pos (show i = r - 1 ∧ j = c ∨ i = r ∧ j = c ∨ i = r + 1 ∧ j = c by omega),
          if_neg (show ¬(j + 1 = c ∨ j = c + 1) by omega),
          if_pos (show j = c by omega),
          if_neg (show ¬(i = r) by omega),
          if_pos (show i + 2 = r ∨ i + 1 = r ∨ i = r + 1 ∨ i = r + 2 by omega),
          if_neg (show ¬(i = r ∧ j = c - 1 ∨ i = r ∧ j = c ∨ i = r ∧ j = c + 1) by omega)]
        rfl
      · rw [if_neg (show ¬(i = r - 1 ∧ j = c ∨ i = r ∧ j = c ∨ i = r + 1 ∧ j = c) by omega),
          if_pos (show j + 1 = c ∨ j = c + 1 by omega),
          if_neg (show ¬(i = r) by omega),
          if_pos (show i + 1 = r ∨ i = r + 1 by omega),
          if_neg (show ¬(i = r ∧ j = c - 1 ∨ i = r ∧ j = c ∨ i = r ∧ j = c + 1) by omega)]
        rfl
      · rw [if_neg (show ¬(i = r - 1 ∧ j = c ∨ i = r ∧ j = c ∨ i = r + 1 ∧ j = c) by omega),
          if_neg (show ¬(j + 1 = c ∨ j = c + 1) by omega),
          if_neg (show ¬(j = c) by omega),
          if_neg (show ¬(i = r ∧ j = c - 1 ∨ i = r ∧ j = c ∨ i = r ∧ j = c + 1) by omega)]
        rfl
      · rw [if_neg (show ¬(i = r - 1 ∧ j = c ∨ i = r ∧ j = c ∨ i = r + 1 ∧ j = c) by omega),
          if_pos (show j + 1 = c ∨ j = c + 1 by omega),
          if_pos (show i = r by omega),
          if_pos (show i = r ∧ j = c - 1 ∨ i = r ∧ j = c ∨ i = r ∧ j = c + 1 by omega)]
        rfl
      · rw [if_pos (show i = r - 1 ∧ j = c ∨ i = r ∧ j = c ∨ i = r + 1 ∧ j = c by omega),
          if_neg (show ¬(j + 1 = c ∨ j = c + 1) by omega),
          if_pos (show j = c by omega),
          if_pos (show i = r by omega),
          if_pos (show i = r ∧ j = c - 1 ∨ i = r ∧ j = c ∨ i = r ∧ j = c + 1 by omega)]
        rfl
      · rw [if_neg (show ¬(i = r - 1 ∧ j = c ∨ i = r ∧ j = c ∨ i = r + 1 ∧ j = c) by omega),
          if_pos (show j + 1 = c ∨ j = c + 1 by omega),
          if_pos (show i = r by omega),
          if_pos (show i = r ∧ j = c - 1 ∨ i = r ∧ j = c ∨ i = r ∧ j = c + 1 by omega)]
        rfl
      · rw [if_neg (show ¬(i = r - 1 ∧ j = c ∨ i = r ∧ j = c ∨ i = r + 1 ∧ j = c) by omega),
          if_neg (show ¬(j + 1 = c ∨ j = c + 1) by omega),
          if_neg (show ¬(j = c) by omega),
          if_neg (show ¬(i = r ∧ j = c - 1 ∨ i = r ∧ j = c ∨ i = r ∧ j = c + 1) by omega)]
        rfl
      · rw [if_neg (show ¬(i = r - 1 ∧ j = c ∨ i = r ∧ j = c ∨ i = r + 1 ∧ j = c) by omega),
          if_pos (show j + 1 = c ∨ j = c + 1 by omega),
          if_neg (show ¬(i = r) by omega),
          if_pos (show i + 1 = r ∨ i = r + 1 by omega),
          if_neg (show ¬(i = r ∧ j = c - 1 ∨ i = r ∧ j = c ∨ i = r ∧ j = c + 1) by omega)]
        rfl
      · rw [if_pos (show i = r - 1 ∧ j = c ∨ i = r ∧ j = c ∨ i = r + 1 ∧ j = c by omega),
          if_neg (show ¬(j + 1 = c ∨ j = c + 1) by omega),
          if_pos (show j = c by omega),
          if_neg (show ¬(i = r) by omega),
          if_pos (show i + 2 = r ∨ i + 1 = r ∨ i = r + 1 ∨ i = r + 2 by omega),
          if_neg (show ¬(i = r ∧ j = c - 1 ∨ i = r ∧ j = c ∨ i = r ∧ j = c + 1) by omega)]
        rfl
      · rw [if_neg (show ¬(i = r - 1 ∧ j = c ∨ i = r ∧ j = c ∨ i = r + 1 ∧ j = c) by omega),
          if_pos (show j + 1 = c ∨ j = c + 1 by omega),
          if_neg (show ¬(i = r) by omega),
          if_pos (show i + 1 = r ∨ i = r + 1 by omega),
          if_neg (show ¬(i = r ∧ j = c - 1 ∨ i = r ∧ j = c ∨ i = r ∧ j = c + 1) by omega)]
        rfl
      · rw [if_neg (show ¬(i = r - 1 ∧ j = c ∨ i = r ∧ j = c ∨ i = r + 1 ∧ j = c) by omega),
          if_neg (show ¬(j + 1 = c ∨ j = c + 1) by omega),
          if_neg (show ¬(j = c) by omega),
          if_neg (show ¬(i = r ∧ j = c - 1 ∨ i = r ∧ j = c ∨ i = r ∧ j = c + 1) by omega)]
        rfl
      · rw [if_neg (show ¬(i = r - 1 ∧ j = c ∨ i = r ∧ j = c ∨ i = r + 1 ∧ j = c) by omega),
          if_pos (show j + 1 = c ∨ j = c + 1 by omega),
          if_neg (show ¬(i = r) by omega),
          if_neg (show ¬(i + 1 = r ∨ i = r + 1) by omega),
          if_pos (show i + 2 = r ∨ i = r + 2 by omega),
          if_neg (show ¬(i = r ∧ j = c - 1 ∨ i = r ∧ j = c ∨ i = r ∧ j = c + 1) by omega)]
        rfl
      · rw [if_neg (show ¬(i = r - 1 ∧ j = c ∨ i = r ∧ j = c ∨ i = r + 1 ∧ j = c) by omega),
          if_neg (show ¬(j + 1 = c ∨ j = c + 1) by omega),
          if_pos (show j = c by omega),
          if_neg (show ¬(i = r) by omega),
          if_pos (show i + 2 = r ∨ i + 1 = r ∨ i = r + 1 ∨ i = r + 2 by omega),
          if_neg (show ¬(i = r ∧ j = c - 1 ∨ i = r ∧ j = c ∨ i = r ∧ j = c + 1) by omega)]
        rfl
      · rw [if_neg (show ¬(i = r - 1 ∧ j = c ∨ i = r ∧ j = c ∨ i = r + 1 ∧ j = c) by omega),
          if_pos (show j + 1 = c ∨ j = c + 1 by omega),
          if_neg (show ¬(i = r) by omega),
          if_neg (show ¬(i + 1 = r ∨ i = r + 1) by omega),
          if_pos (show i + 2 = r ∨ i = r + 2 by omega),
          if_neg (show ¬(i = r ∧ j = c - 1 ∨ i = r ∧ j = c ∨ i = r ∧ j = c + 1) by omega)]
        rfl
      · rw [if_neg (show ¬(i = r - 1 ∧ j = c ∨ i = r ∧ j = c ∨ i = r + 1 ∧ j = c) by omega),
          if_neg (show ¬(j + 1 = c ∨ j = c + 1) by omega),
          if_neg (show ¬(j = c) by omega),
          if_neg (show ¬(i = r ∧ j = c - 1 ∨ i = r ∧ j = c ∨ i = r ∧ j = c + 1) by omega)]
        rfl
      · rw [if_neg (show ¬(i = r - 1 ∧ j = c ∨ i = r ∧ j = c ∨ i = r + 1 ∧ j = c) by omega),
          if_pos (show j + 1 = c ∨ j = c + 1 by omega),
          if_neg (show ¬(i = r) by omega),
          if_neg (show ¬(i + 1 = r ∨ i = r + 1) by omega),
          if_neg (show ¬(i + 2 = r ∨ i = r + 2) by omega),
          if_neg (show ¬(i = r ∧ j = c - 1 ∨ i = r ∧ j = c ∨ i = r ∧ j = c + 1) by omega)]
        rfl
      · rw [if_neg (show ¬(i = r - 1 ∧ j = c ∨ i = r ∧ j = c ∨ i = r + 1 ∧ j = c) by omega),
          if_neg (show ¬(j + 1 = c ∨ j = c + 1) by omega),
          if_pos (show j = c by omega),
          if_neg (show ¬(i = r) by omega),
          if_neg (show ¬(i + 2 = r ∨ i + 1 = r ∨ i = r + 1 ∨ i = r + 2) by omega),
          if_neg (show ¬(i = r ∧ j = c - 1 ∨ i = r ∧ j = c ∨ i = r ∧ j = c + 1) by omega)]
        rfl
      · rw [if_neg (show ¬(i = r - 1 ∧ j = c ∨ i = r ∧ j = c ∨ i = r + 1 ∧ j = c) by omega),
          if_pos (show j + 1 = c ∨ j = c + 1 by omega),
          if_neg (show ¬(i = r) by omega),
          if_neg (show ¬(i + 1 = r ∨ i = r + 1) by omega),
          if_neg (show ¬(i + 2 = r ∨ i = r + 2) by omega),
          if_neg (show ¬(i = r ∧ j = c - 1 ∨ i = r ∧ j = c ∨ i = r ∧ j = c + 1) by omega)]
        rfl
      · rw [if_neg (show ¬(i = r - 1 ∧ j = c ∨ i = r ∧ j = c ∨ i = r + 1 ∧ j = c) by omega),
          if_neg (show ¬(j + 1 = c ∨ j = c + 1) by omega),
          if_neg (show ¬(j = c) by omega),
          if_neg (show ¬(i = r ∧ j = c - 1 ∨ i = r ∧ j = c ∨ i = r ∧ j = c + 1) by omega)]
        rfl
    · rw [if_neg (fun hcon => hk hcon.1)]
      rw [show (blinkerV n r c).cells = threeCells n ((r - 1) * n + c) (r * n + c) ((r + 1) * n + c) from rfl]
      rw [show (blinkerH n r c).cells = threeCells n (r * n + (c - 1)) (r * n + c) (r * n + (c + 1)) from rfl]
      rw [List.getElem?_eq_none (by simp [threeCells]; omega),
        List.getElem?_eq_none (by simp [threeCells]; omega)]
  have h1 : tick (blinkerV n r c) = Universe.mk n n (tick (blinkerV n r c)).cells := rfl
  rw [h1, hcells]
  rfl

/-! ## Claim C3: the blinker oscillator -/

/-- A non-square universe: width 6, height 5, with the only alive cells at
`(2, 1)`, `(2, 2)`, `(2, 3)` — the horizontal blinker at `r = 2`, `c = 2`,
away from the edges. -/
def uNonSquare : Universe :=
  Universe.mk 6 5 ((List.range 30).map
    (fun k => if k = 13 ∨ k = 14 ∨ k = 15 then Cell.Alive else Cell.Dead))

/-- C3 counterexample: on the 6-wide 5-high grid (both ≥ 5), one `tick` does
not produce the claimed vertical line — it leaves the horizontal blinker
completely unchanged (the swapped neighbour deltas make every cell of this
non-square grid count a multiset that is not its 8 neighbours). -/
theorem c3_blinker_counterexample :
    5 ≤ uNonSquare.width ∧ 5 ≤ uNonSquare.height ∧
    (tick uNonSquare).cells ≠
      (List.range 30).map (fun k => if k = 8 ∨ k = 14 ∨ k = 20 then Cell.Alive else Cell.Dead) ∧
    tick uNonSquare = uNonSquare := by
  decide

/-- Any universe with the blinker-H dimensions and cell pattern is `blinkerH`
itself: the hypotheses of the claim pin the universe down completely. -/
theorem eq_blinkerH_of_cells (u : Universe) (n r c : Nat) (hw : u.width = n)
    (hh : u.height = n) (hlen : u.cells.length = n * n)
    (hcells : ∀ k, k < n * n → u.cells[k]? =
      some (if k = r * n + (c - 1) ∨ k = r * n + c ∨ k = r * n + (c + 1)
        then Cell.Alive else Cell.Dead)) :
    u = blinkerH n r c := by
  have hcs : u.cells = threeCells n (r * n + (c - 1)) (r * n + c) (r * n + (c + 1)) := by
    apply List.ext_getElem?
    intro k
    by_cases hk : k < n * n
    · rw [hcells k hk, threeCells_getElem? n _ _ _ k hk]
    · rw [List.getElem?_eq_none (by omega), List.getElem?_eq_none (by simp [threeCells]; omega)]
  obtain ⟨w, h, cs⟩ := u
  dsimp only at hw hh hcs
  rw [blinkerH, hw, hh, hcs]

/-- C3 amended: on a square grid (`width = height = n ≥ 5` — squareness is
forced, the counterexample shows a 6×5 grid fails) with the blinker away
from the edges, one `tick` of the horizontal blinker gives the vertical one
and a second `tick` restores it. -/
theorem c3_blinker_amended (n r c : Nat) (hn : 5 ≤ n) (hr2 : 2 ≤ r) (hr3 : r + 3 ≤ n)
    (hc2 : 2 ≤ c) (hc3 : c + 3 ≤ n) :
    tick (blinkerH n r c) = blinkerV n r c ∧
    tick (tick (blinkerH n r c)) = blinkerH n r c := by
  have h1 := tick_blinkerH n r c hn hr2 hr3 hc2 hc3
  refine ⟨h1, ?_⟩
  rw [h1]
  exact tick_blinkerV n r c hn hr2 hr3 hc2 hc3

/-- Witness for C3's amended statement on the 5×5 grid with `r = c = 2`. -/
theorem c3_blinker_amended_witness :
    tick (blinkerH 5 2 2) = blinkerV 5 2 2 ∧
    tick (tick (blinkerH 5 2 2)) = blinkerH 5 2 2 :=
  c3_blinker_amended 5 2 2 (by decide) (by decide) (by decide) (by decide) (by decide)

end GameOfLife
